import Mathlib

/-! Verification development for the chainlink wiring code.

Shallow embedding of

* `core/chains/legacyevm/evm_txm.go` (`newEvmTxm`),
* `core/services/ocr3/promwrapper/{factory,plugin}.go` (metrics decorator),
* `deployment/environment/memory/environment.go` (in-memory chains).

Go interfaces whose implementation lives outside these files are modelled as
uninterpreted handles or as explicit functions passed in; side effects are
modelled by explicit state passing and by a log of the external calls made.
Pointers that are non-nil by the contract of the API producing them are
modelled as plain values; pointers and interfaces the code itself tests
against nil, or sets to nil, are `Option`s.
-/

set_option autoImplicit false

/-! ## Go errors -/

/-- Go `error` values: a plain message, or a `fmt.Errorf("...%w", err)` wrapper that
keeps its cause. -/
inductive GoError where
  | errorString (s : String)
  | wrapError (msg : String) (err : GoError)
  deriving DecidableEq, Repr

namespace GoError

/-- The `Error()` method. -/
def Error : GoError → String
  | errorString s => s
  | wrapError msg _ => msg

/-- The `Unwrap()` method (`errors.Unwrap`). -/
def Unwrap : GoError → Option GoError
  | errorString _ => none
  | wrapError _ err => some err

end GoError

/-- The verb `%d` applied to an integer: decimal digits, with a leading minus sign for a
negative value. -/
def formatD (n : Int) : String :=
  if n < 0 then "-" ++ Nat.repr n.natAbs else Nat.repr n.natAbs

/-- Model of `fmt.Errorf(prefix + "%w", err)`: message is the prefix followed by the
message of the cause, and the cause stays reachable through `Unwrap`. -/
def Errorf_w (pfx : String) (err : GoError) : GoError :=
  GoError.wrapError (pfx ++ err.Error) err

/-! ## `legacyevm.newEvmTxm` -/

namespace legacyevm

/-- A handle for `sqlutil.DataSource`. -/
structure DataSource where
  id : Nat
  deriving DecidableEq, Repr

/-- A handle for `txmgr.DatabaseConfig`. -/
structure DatabaseConfig where
  id : Nat
  deriving DecidableEq, Repr

/-- A handle for `txmgr.ListenerConfig`. -/
structure ListenerConfig where
  id : Nat
  deriving DecidableEq, Repr

/-- A handle for `evmclient.Client`. -/
structure Client where
  id : Nat
  deriving DecidableEq, Repr

/-- A handle for `logpoller.LogPoller`. -/
structure LogPoller where
  id : Nat
  deriving DecidableEq, Repr

/-- A handle for `httypes.HeadTracker`. -/
structure HeadTracker where
  id : Nat
  deriving DecidableEq, Repr

/-- A handle for the key store carried by `ChainRelayOpts`. -/
structure KeyStore where
  id : Nat
  deriving DecidableEq, Repr

/-- A handle for `map[string]rollups.DAClient`. -/
structure DAClients where
  id : Nat
  deriving DecidableEq, Repr

/-- A `logger.Logger`, identified by the chain of names given to it by `Named`. -/
structure Logger where
  names : List String
  deriving DecidableEq, Repr

/-- The method `lggr.Named(name)`. -/
def Logger.Named (l : Logger) (name : String) : Logger :=
  { names := l.names ++ [name] }

/-- Values logged as key/value pairs by `Infow`. -/
inductive LogValue where
  | uint (n : Nat)
  | bool (b : Bool)
  deriving DecidableEq, Repr

/-- The part `cfg.GasEstimator()` of the chain configuration. -/
structure GasEstimatorConfig where
  BumpTxDepth : Nat
  LimitDefault : Nat
  id : Nat
  deriving DecidableEq, Repr

/-- The part `cfg.Transactions()` of the chain configuration. -/
structure TransactionsConfig where
  MaxInFlight : Nat
  MaxQueued : Nat
  id : Nat
  deriving DecidableEq, Repr

/-- The configuration `evmconfig.EVM`, by the getters `newEvmTxm` reads. -/
structure EVM where
  ChainID : Int
  ChainType : String
  NonceAutoSync : Bool
  GasEstimator : GasEstimatorConfig
  Transactions : TransactionsConfig
  NodePoolErrors : Nat
  deriving DecidableEq, Repr

/-- A non-nil `gas.EvmFeeEstimator`. -/
structure EvmFeeEstimator where
  id : Nat
  deriving DecidableEq, Repr

/-- The struct `txmgr.NullTxManager`: it carries only its explanation. -/
structure NullTxManager where
  ErrMsg : String
  deriving DecidableEq, Repr

/-- A non-nil `txmgr.TxManager`: the disabled-chain stub, or some other
implementation (built by `txmgr.NewTxm` or by a generator). -/
inductive TxManager where
  | null (n : NullTxManager)
  | other (id : Nat)
  deriving DecidableEq, Repr

/-- The struct `ChainRelayOpts`, by the fields `newEvmTxm` reads; a generator that is
not set is `none`. -/
structure ChainRelayOpts where
  KeyStore : KeyStore
  GenGasEstimator : Option (Int → Option EvmFeeEstimator)
  GenTxManager : Option (Int → Option TxManager)

/-- The arguments of `txmgr.NewTxm`, in the order of the call in `newEvmTxm`. -/
structure NewTxmArgs where
  ds : DataSource
  cfg : EVM
  feeCfg : GasEstimatorConfig
  txCfg : TransactionsConfig
  clientErrors : Nat
  databaseConfig : DatabaseConfig
  listenerConfig : ListenerConfig
  client : Client
  lggr : Logger
  logPoller : LogPoller
  keyStore : KeyStore
  estimator : Option EvmFeeEstimator
  headTracker : HeadTracker
  deriving DecidableEq, Repr

/-- The arguments of `gas.NewEstimator`, in the order of the call in `newEvmTxm`. -/
structure NewEstimatorArgs where
  lggr : Logger
  client : Client
  chainType : String
  chainID : Int
  gasCfg : GasEstimatorConfig
  clientsByChainID : DAClients
  deriving DecidableEq, Repr

/-- The constructors of other packages that `newEvmTxm` calls, as functions of their
arguments returning the Go result tuple. -/
structure Deps where
  NewEstimator : NewEstimatorArgs → Option EvmFeeEstimator × Option GoError
  NewTxm : NewTxmArgs → Option TxManager × Option GoError

/-- The external calls `newEvmTxm` can make, in a log. -/
inductive Call where
  | Infow (lggr : Logger) (msg : String) (kvs : List (String × LogValue))
  | NewEstimator (args : NewEstimatorArgs)
  | GenGasEstimator (chainID : Int)
  | NewTxm (args : NewTxmArgs)
  | GenTxManager (chainID : Int)
  deriving DecidableEq, Repr

/-- Whether a logged call builds or generates a gas estimator. -/
def Call.isEstimatorCall : Call → Bool
  | .NewEstimator _ => true
  | .GenGasEstimator _ => true
  | _ => false

/-- Whether a logged call builds or generates a transaction manager. -/
def Call.isTxmCall : Call → Bool
  | .NewTxm _ => true
  | .GenTxManager _ => true
  | _ => false

/-- The arguments of `newEvmTxm`. -/
structure Args where
  ds : DataSource
  cfg : EVM
  evmRPCEnabled : Bool
  databaseConfig : DatabaseConfig
  listenerConfig : ListenerConfig
  client : Client
  lggr : Logger
  logPoller : LogPoller
  opts : ChainRelayOpts
  headTracker : HeadTracker
  clientsByChainID : DAClients

/-- The three results of `newEvmTxm` (`nil` is `none`), with the log of the external
calls made on the way. -/
structure Result where
  txm : Option TxManager
  estimator : Option EvmFeeEstimator
  err : Option GoError
  calls : List Call

/-- Lines 57-75 of `evm_txm.go`: the transaction manager is built by `txmgr.NewTxm`
unless `opts.GenTxManager` is set; `err` is the named result, still nil when this part
is reached. -/
def buildTxm (d : Deps) (a : Args) (lggr : Logger) (estimator : Option EvmFeeEstimator)
    (log : List Call) : Result :=
  match a.opts.GenTxManager with
  | none =>
    let targs : NewTxmArgs :=
      { ds := a.ds, cfg := a.cfg, feeCfg := a.cfg.GasEstimator, txCfg := a.cfg.Transactions,
        clientErrors := a.cfg.NodePoolErrors, databaseConfig := a.databaseConfig,
        listenerConfig := a.listenerConfig, client := a.client, lggr := lggr,
        logPoller := a.logPoller, keyStore := a.opts.KeyStore, estimator := estimator,
        headTracker := a.headTracker }
    let r := d.NewTxm targs
    { txm := r.1, estimator := estimator, err := r.2, calls := log ++ [.NewTxm targs] }
  | some gen =>
    { txm := gen a.cfg.ChainID, estimator := estimator, err := none,
      calls := log ++ [.GenTxManager a.cfg.ChainID] }

/-- The arguments `newEvmTxm` passes to `gas.NewEstimator`: the logger is the one
renamed by `lggr.Named("Txm")`. -/
def estimatorArgs (a : Args) : NewEstimatorArgs :=
  { lggr := a.lggr.Named "Txm", client := a.client, chainType := a.cfg.ChainType,
    chainID := a.cfg.ChainID, gasCfg := a.cfg.GasEstimator,
    clientsByChainID := a.clientsByChainID }

/-- The function `newEvmTxm` of `evm_txm.go`. -/
def newEvmTxm (d : Deps) (a : Args) : Result :=
  let chainID := a.cfg.ChainID
  if !a.evmRPCEnabled then
    { txm := some (.null { ErrMsg := "Ethereum is disabled for chain " ++ formatD chainID }),
      estimator := none, err := none, calls := [] }
  else
    let lggr := a.lggr.Named "Txm"
    let log : List Call := [.Infow lggr "Initializing EVM transaction manager"
      [("bumpTxDepth", .uint a.cfg.GasEstimator.BumpTxDepth),
       ("maxInFlightTransactions", .uint a.cfg.Transactions.MaxInFlight),
       ("maxQueuedTransactions", .uint a.cfg.Transactions.MaxQueued),
       ("nonceAutoSync", .bool a.cfg.NonceAutoSync),
       ("limitDefault", .uint a.cfg.GasEstimator.LimitDefault)]]
    -- build estimator from factory
    match a.opts.GenGasEstimator with
    | none =>
      match d.NewEstimator (estimatorArgs a) with
      | (_, some e) =>
        { txm := none, estimator := none,
          err := some (Errorf_w "failed to initialize estimator: " e),
          calls := log ++ [.NewEstimator (estimatorArgs a)] }
      | (estimator, none) =>
        buildTxm d a lggr estimator (log ++ [.NewEstimator (estimatorArgs a)])
    | some gen => buildTxm d a lggr (gen chainID) (log ++ [.GenGasEstimator chainID])

/-! ### The disabled-chain stub -/

/-- A request of the public contract's `submit`. -/
structure SubmitRequest where
  key : Nat
  destination : Nat
  value : Nat
  payload : List Nat
  confirmationDepth : Nat
  deriving DecidableEq, Repr

/-- A record of the transaction Store: an accepted operation with its identifier. -/
structure StoreRecord where
  id : Nat
  request : SubmitRequest
  deriving DecidableEq, Repr

/-- The transaction Store: its records. -/
abbrev Store := List StoreRecord

/-- The answer of `submit`: the identifier of the accepted operation, or a rejection
carrying its reason. -/
inductive SubmitResult where
  | accepted (id : Nat)
  | rejected (reason : GoError)
  deriving DecidableEq, Repr

/-- Modelled from the spec: the methods of `txmgr.NullTxManager` are not part of the
sources at hand. By §4.7 the stub satisfies the public contract of the manager, every
mutating call returns a fixed "chain disabled" error and no state is created; `submit`
is the mutating call of the public contract of §6. The fixed error carries the
explanation `ErrMsg` the stub was built with. -/
def NullTxManager.submit (n : NullTxManager) (_req : SubmitRequest) (store : Store) :
    SubmitResult × Store :=
  (.rejected (.errorString n.ErrMsg), store)

/-- A sequence of `submit` calls on the stub, oldest first: the answers and the Store
left. -/
def NullTxManager.submitAll (n : NullTxManager) : List SubmitRequest → Store →
    List SubmitResult × Store
  | [], store => ([], store)
  | req :: rest, store =>
    let r := n.submit req store
    let rs := n.submitAll rest r.2
    (r.1 :: rs.1, rs.2)

/-- Sample dependencies: both constructors succeed. -/
def sampleDeps : Deps :=
  { NewEstimator := fun _ => (some { id := 1 }, none),
    NewTxm := fun _ => (some (.other 2), none) }

/-- Sample dependencies whose estimator constructor fails. -/
def failingDeps : Deps :=
  { NewEstimator := fun _ => (none, some (.errorString "boom")),
    NewTxm := fun _ => (some (.other 2), none) }

/-- Sample configuration of the chain with the given identifier. -/
def sampleCfg (chainID : Int) : EVM :=
  { ChainID := chainID, ChainType := "", NonceAutoSync := true,
    GasEstimator := { BumpTxDepth := 10, LimitDefault := 500000, id := 0 },
    Transactions := { MaxInFlight := 16, MaxQueued := 250, id := 0 },
    NodePoolErrors := 0 }

/-- Sample arguments with both generators set. -/
def sampleArgs (chainID : Int) (enabled : Bool) : Args :=
  { ds := { id := 0 }, cfg := sampleCfg chainID, evmRPCEnabled := enabled,
    databaseConfig := { id := 0 }, listenerConfig := { id := 0 }, client := { id := 0 },
    lggr := { names := [] }, logPoller := { id := 0 },
    opts := { KeyStore := { id := 0 },
              GenGasEstimator := some (fun _ => some { id := 7 }),
              GenTxManager := some (fun _ => some (.other 8)) },
    headTracker := { id := 0 }, clientsByChainID := { id := 0 } }

/-- Sample arguments with no generator set. -/
def plainArgs (chainID : Int) (enabled : Bool) : Args :=
  { ds := { id := 3 }, cfg := sampleCfg chainID, evmRPCEnabled := enabled,
    databaseConfig := { id := 4 }, listenerConfig := { id := 5 }, client := { id := 6 },
    lggr := { names := ["EVM"] }, logPoller := { id := 7 },
    opts := { KeyStore := { id := 8 }, GenGasEstimator := none, GenTxManager := none },
    headTracker := { id := 9 }, clientsByChainID := { id := 10 } }

end legacyevm

/-! ## `promwrapper`: the metrics decorator of an OCR3 reporting plugin -/

namespace ocr3types

/-- A `context.Context`. -/
structure Context where
  id : Nat
  deriving DecidableEq, Repr

/-- A byte slice (`ocrtypes.Query`, `ocrtypes.Observation`, `ocr3types.Outcome`,
`ocrtypes.Report`); the nil slice is `none`. -/
abbrev Bytes := Option (List Nat)

/-- The struct `ocr3types.OutcomeContext`. -/
structure OutcomeContext where
  SeqNr : Nat
  PreviousOutcome : Bytes
  Epoch : Nat
  Round : Nat
  deriving DecidableEq, Repr

/-- The struct `ocrtypes.AttributedObservation`. -/
structure AttributedObservation where
  Observation : Bytes
  Observer : Nat
  deriving DecidableEq, Repr

/-- The struct `ocr3types.ReportWithInfo[RI]`. -/
structure ReportWithInfo (RI : Type) where
  Report : Bytes
  Info : RI

/-- The struct `ocr3types.ReportPlus[RI]`. -/
structure ReportPlus (RI : Type) where
  ReportWithInfo : ReportWithInfo RI
  TransmissionScheduleOverride : Option Nat

/-- The struct `ocr3types.ReportingPluginLimits`. -/
structure ReportingPluginLimits where
  MaxQueryLength : Int := 0
  MaxObservationLength : Int := 0
  MaxOutcomeLength : Int := 0
  MaxReportLength : Int := 0
  MaxReportCount : Int := 0
  deriving DecidableEq, Repr

/-- The struct `ocr3types.ReportingPluginInfo`; `{}` is its zero value. -/
structure ReportingPluginInfo where
  Name : String := ""
  Limits : ReportingPluginLimits := {}
  deriving DecidableEq, Repr

/-- A handle for `ocr3types.ReportingPluginConfig`. -/
structure ReportingPluginConfig where
  id : Nat
  deriving DecidableEq, Repr

end ocr3types

namespace promwrapper

open ocr3types

/-- The constants of type `functionType` naming the wrapped methods. -/
inductive functionType where
  | query
  | observation
  | validateObservation
  | outcome
  | reports
  | shouldAccept
  | shouldTransmit
  deriving DecidableEq, Repr

/-- Identity of a prometheus metric vector. -/
inductive Vec where
  | promOCR3ReportsGenerated
  | promOCR3Durations
  | other (id : Nat)
  deriving DecidableEq, Repr

/-- One write to a metric vector: `vec.WithLabelValues(labels...).Observe(v)` on a
histogram, or `vec.WithLabelValues(labels...).Add(v)` on a counter. The value is kept
as the integer that the code converts to `float64`. -/
inductive MetricEvent where
  | Observe (vec : Vec) (labels : List String) (value : Int)
  | Add (vec : Vec) (labels : List String) (value : Int)
  deriving DecidableEq, Repr

/-- Everything a call can read or change: the state `σ` of the wrapped components, the
clock read by `time.Now()` (in nanoseconds) and the writes made to the metric vectors so
far, oldest first. -/
structure World (σ : Type) where
  state : σ
  now : Int
  metrics : List MetricEvent

/-- A Go method returning `(R, error)`, as a function of the world. -/
abbrev Exec (σ R : Type) := World σ → (R × Option GoError) × World σ

end promwrapper

namespace ocr3types

open promwrapper

/-- The interface `ocr3types.ReportingPlugin[RI]`, by its method table. -/
structure ReportingPlugin (σ RI : Type) where
  Query : Context → OutcomeContext → Exec σ Bytes
  Observation : Context → OutcomeContext → Bytes → Exec σ Bytes
  ValidateObservation : Context → OutcomeContext → Bytes → AttributedObservation →
    World σ → Option GoError × World σ
  Outcome : Context → OutcomeContext → Bytes → Option (List AttributedObservation) →
    Exec σ Bytes
  Reports : Context → Nat → Bytes → Exec σ (Option (List (ReportPlus RI)))
  ShouldAcceptAttestedReport : Context → Nat → ReportWithInfo RI → Exec σ Bool
  ShouldTransmitAcceptedReport : Context → Nat → ReportWithInfo RI → Exec σ Bool

/-- The interface `ocr3types.ReportingPluginFactory[RI]`: its one method either fails
with an error or yields a plugin and its info. -/
structure ReportingPluginFactory (σ RI : Type) where
  NewReportingPlugin : Context → ReportingPluginConfig →
    World σ → Except GoError (ReportingPlugin σ RI × ReportingPluginInfo) × World σ

end ocr3types

namespace promwrapper

open ocr3types

/-- The struct `reportingPlugin[RI]`: the embedded plugin, two labels and the two
metric vectors written to. -/
structure reportingPlugin (σ RI : Type) where
  ReportingPlugin : ocr3types.ReportingPlugin σ RI
  chainID : String
  plugin : String
  reportsGenerated : Vec
  durations : Vec

/-- The function `newReportingPlugin`. -/
def newReportingPlugin {σ RI : Type} (origin : ocr3types.ReportingPlugin σ RI)
    (chainID : String) (plugin : String) (reportsGenerated : Vec) (durations : Vec) :
    reportingPlugin σ RI :=
  { ReportingPlugin := origin, chainID := chainID, plugin := plugin,
    reportsGenerated := reportsGenerated, durations := durations }

/-- The function `strconv.FormatBool`. -/
def FormatBool (b : Bool) : String :=
  if b then "true" else "false"

/-- The length `len(s)` of a slice; a nil slice has length 0. -/
def len {α : Type} (s : Option (List α)) : Int :=
  match s with
  | none => 0
  | some l => (l.length : Int)

/-- The function `boolToInt`. -/
def boolToInt (arg : Bool) : Int :=
  if arg then 1 else 0

section methods

variable {σ RI : Type}
/- The string behind each `functionType` constant; the constants are declared in a file
of the package that is not part of the sources at hand. -/
variable (fname : functionType → String)

/-- The function `withObservedExecution`. -/
def withObservedExecution {R : Type} (p : reportingPlugin σ RI) (function : functionType)
    (exec : Exec σ R) : Exec σ R := fun w =>
  let start := w.now
  let r := exec w
  let result := r.1.1
  let err := r.1.2
  let w1 := r.2
  let success := err.isNone
  let w2 : World σ :=
    { state := w1.state, now := w1.now,
      metrics := w1.metrics ++
        [.Observe p.durations [p.chainID, p.plugin, fname function, FormatBool success]
          (w1.now - start)] }
  ((result, err), w2)

/-- The method `trackReports`. -/
def reportingPlugin.trackReports (p : reportingPlugin σ RI) (function : functionType)
    (count : Int) (w : World σ) : World σ :=
  { state := w.state, now := w.now,
    metrics := w.metrics ++ [.Add p.reportsGenerated [p.chainID, p.plugin, fname function] count] }

/-- The method `Query` of the wrapper. -/
def reportingPlugin.Query (p : reportingPlugin σ RI) (ctx : Context)
    (outctx : OutcomeContext) : Exec σ Bytes :=
  withObservedExecution fname p .query (p.ReportingPlugin.Query ctx outctx)

/-- The method `Observation` of the wrapper. -/
def reportingPlugin.Observation (p : reportingPlugin σ RI) (ctx : Context)
    (outctx : OutcomeContext) (query : Bytes) : Exec σ Bytes :=
  withObservedExecution fname p .observation (p.ReportingPlugin.Observation ctx outctx query)

/-- The method `ValidateObservation` of the wrapper. -/
def reportingPlugin.ValidateObservation (p : reportingPlugin σ RI) (ctx : Context)
    (outctx : OutcomeContext) (query : Bytes) (ao : AttributedObservation) :
    World σ → Option GoError × World σ := fun w =>
  let r := withObservedExecution fname p .validateObservation
    (fun w0 =>
      let e := p.ReportingPlugin.ValidateObservation ctx outctx query ao w0
      (((), e.1), e.2)) w
  (r.1.2, r.2)

/-- The method `Outcome` of the wrapper. -/
def reportingPlugin.Outcome (p : reportingPlugin σ RI) (ctx : Context)
    (outctx : OutcomeContext) (query : Bytes) (aos : Option (List AttributedObservation)) :
    Exec σ Bytes :=
  withObservedExecution fname p .outcome (p.ReportingPlugin.Outcome ctx outctx query aos)

/-- The method `Reports` of the wrapper. -/
def reportingPlugin.Reports (p : reportingPlugin σ RI) (ctx : Context) (seqNr : Nat)
    (outcome : Bytes) : Exec σ (Option (List (ReportPlus RI))) := fun w =>
  let r := withObservedExecution fname p .reports (p.ReportingPlugin.Reports ctx seqNr outcome) w
  let result := r.1.1
  let err := r.1.2
  ((result, err), p.trackReports fname .reports (len result) r.2)

/-- The method `ShouldAcceptAttestedReport` of the wrapper. -/
def reportingPlugin.ShouldAcceptAttestedReport (p : reportingPlugin σ RI) (ctx : Context)
    (seqNr : Nat) (reportWithInfo : ReportWithInfo RI) : Exec σ Bool := fun w =>
  let r := withObservedExecution fname p .shouldAccept
    (p.ReportingPlugin.ShouldAcceptAttestedReport ctx seqNr reportWithInfo) w
  let result := r.1.1
  let err := r.1.2
  ((result, err), p.trackReports fname .shouldAccept (boolToInt result) r.2)

/-- The method `ShouldTransmitAcceptedReport` of the wrapper. -/
def reportingPlugin.ShouldTransmitAcceptedReport (p : reportingPlugin σ RI) (ctx : Context)
    (seqNr : Nat) (reportWithInfo : ReportWithInfo RI) : Exec σ Bool := fun w =>
  let r := withObservedExecution fname p .shouldTransmit
    (p.ReportingPlugin.ShouldTransmitAcceptedReport ctx seqNr reportWithInfo) w
  let result := r.1.1
  let err := r.1.2
  ((result, err), p.trackReports fname .shouldTransmit (boolToInt result) r.2)

end methods

/-- The struct `ReportingPluginFactory[RI]` of `factory.go`. -/
structure ReportingPluginFactory (σ RI : Type) where
  origin : ocr3types.ReportingPluginFactory σ RI
  chainID : String
  plugin : String

/-- The function `NewReportingPluginFactory`. -/
def NewReportingPluginFactory {σ RI : Type} (origin : ocr3types.ReportingPluginFactory σ RI)
    (chainID : String) (plugin : String) : ReportingPluginFactory σ RI :=
  { origin := origin, chainID := chainID, plugin := plugin }

/-- The method `ReportingPluginFactory.NewReportingPlugin`: the three Go results (a nil
plugin and a nil error are `none`) and the world left by the wrapped factory. -/
def ReportingPluginFactory.NewReportingPlugin {σ RI : Type} (r : ReportingPluginFactory σ RI)
    (ctx : Context) (config : ReportingPluginConfig) (w : World σ) :
    (Option (reportingPlugin σ RI) × ReportingPluginInfo × Option GoError) × World σ :=
  let o := r.origin.NewReportingPlugin ctx config w
  match o.1 with
  | .error err => ((none, {}, some err), o.2)
  | .ok (plugin, info) =>
    let wrapped := newReportingPlugin plugin r.chainID r.plugin
      Vec.promOCR3ReportsGenerated Vec.promOCR3Durations
    ((some wrapped, info, none), o.2)

/-- Whether a metric write is an observation on a histogram. -/
def MetricEvent.isObserve : MetricEvent → Bool
  | .Observe _ _ _ => true
  | .Add _ _ _ => false

/-- A sample plugin over a call counter: every method counts the call and takes five
nanoseconds; `Observation` and `ShouldTransmitAcceptedReport` fail. -/
def samplePlugin : ocr3types.ReportingPlugin Nat Unit :=
  { Query := fun _ _ w =>
      ((some [1], none), { state := w.state + 1, now := w.now + 5, metrics := w.metrics }),
    Observation := fun _ _ _ w =>
      ((none, some (.errorString "no observation")),
        { state := w.state + 1, now := w.now + 5, metrics := w.metrics }),
    ValidateObservation := fun _ _ _ _ w =>
      (none, { state := w.state + 1, now := w.now + 5, metrics := w.metrics }),
    Outcome := fun _ _ q _ w =>
      ((q, none), { state := w.state + 1, now := w.now + 5, metrics := w.metrics }),
    Reports := fun _ _ o w =>
      ((some [⟨⟨o, ()⟩, none⟩, ⟨⟨o, ()⟩, none⟩], none),
        { state := w.state + 1, now := w.now + 5, metrics := w.metrics }),
    ShouldAcceptAttestedReport := fun _ _ _ w =>
      ((true, none), { state := w.state + 1, now := w.now + 5, metrics := w.metrics }),
    ShouldTransmitAcceptedReport := fun _ _ _ w =>
      ((false, some (.errorString "not now")),
        { state := w.state + 1, now := w.now + 5, metrics := w.metrics }) }

/-- A sample factory that yields `samplePlugin`. -/
def okFactory : ocr3types.ReportingPluginFactory Nat Unit :=
  { NewReportingPlugin := fun _ _ w => (.ok (samplePlugin, { Name := "sample" }), w) }

/-- A sample factory that fails. -/
def failFactory : ocr3types.ReportingPluginFactory Nat Unit :=
  { NewReportingPlugin := fun _ _ w => (.error (.errorString "no plugin"), w) }

/-- A sample world: nothing called, nothing recorded. -/
def sampleWorld : World Nat :=
  { state := 0, now := 100, metrics := [] }

/-- Sample names of the functions. -/
def sampleNames : functionType → String
  | .query => "query"
  | .observation => "observation"
  | .validateObservation => "validateObservation"
  | .outcome => "outcome"
  | .reports => "reports"
  | .shouldAccept => "shouldAccept"
  | .shouldTransmit => "shouldTransmit"

end promwrapper

/-! ## `memory`: in-memory chains of the deployment environment -/

namespace memory

/-- An account address (`common.Address`), by its numeric value; the zero value is 0. -/
structure Address where
  value : Nat := 0
  deriving DecidableEq, Repr

/-- The struct `bind.TransactOpts`; `{}` is its zero value. -/
structure TransactOpts where
  From : Address := {}
  Nonce : Option Int := none
  Signer : Option Nat := none
  Value : Option Int := none
  GasPrice : Option Int := none
  GasFeeCap : Option Int := none
  GasTipCap : Option Int := none
  GasLimit : Nat := 0
  Context : Option Nat := none
  NoSend : Bool := false
  deriving DecidableEq, Repr

/-- A transaction hash, identified with the text `Hash().Hex()` renders it as. -/
structure Hash where
  Hex : String
  deriving DecidableEq, Repr

/-- A `types.Transaction`, by its hash. -/
structure Transaction where
  Hash : Hash
  deriving DecidableEq, Repr

/-- A `types.Receipt`, by the two fields `Confirm` reads; `Status` is a `uint64`,
`BlockNumber` a big integer. -/
structure Receipt where
  Status : Nat
  BlockNumber : Nat
  deriving DecidableEq, Repr

/-- The conversion `(*big.Int).Uint64()` of a non-negative big integer: its low 64
bits. -/
def Uint64 (n : Nat) : Nat := n % 2 ^ 64

/-- The struct `chainsel.ChainDetails`. -/
structure ChainDetails where
  ChainSelector : Nat
  ChainName : String
  deriving DecidableEq, Repr

/-- A handle for the simulated backend held by an `EVMChain`. -/
structure SimulatedBackend where
  id : Nat
  deriving DecidableEq, Repr

/-- The calls `Confirm` makes on its surroundings, in a log. -/
inductive Call where
  | Commit
  | TransactionReceipt (hash : Hash)
  | Log (args : List String)
  | GetErrorReasonFromTx (sender : Address) (tx : Transaction) (receipt : Receipt)
  deriving DecidableEq, Repr

/-- The state a `Confirm` runs in: the state `β` of the chain's backend and the log of
the calls made so far, oldest first. -/
structure ChainWorld (β : Type) where
  backend : β
  calls : List Call

/-- The client `NewBackend(chain.Backend)`, by the two methods `Confirm` calls. A
receipt query either fails with an error or yields a receipt. -/
structure Backend (β : Type) where
  Commit : β → β
  TransactionReceipt : Hash → β → Except GoError Receipt × β

/-- The result of a `Confirm`: `none` when the given number of loop iterations did not
suffice, else the block number, the error (`none` is nil) and the state left. -/
abbrev ConfirmResult (β : Type) := Option ((Nat × Option GoError) × ChainWorld β)

/-- The struct `deployment.Chain`. The function `Confirm` takes the transaction (`none`
is nil), a bound on the number of loop iterations and the state it starts in. A nil
slice of users is the empty list. -/
structure Chain (β : Type) where
  Selector : Nat
  Client : Option (Backend β)
  DeployerKey : Option TransactOpts
  Confirm : Option Transaction → Nat → ChainWorld β → ConfirmResult β
  Users : List (Option TransactOpts)

/-- The function `NewMemoryChain`. -/
def NewMemoryChain {β : Type} (selector : Nat) : Chain β :=
  { Selector := selector,
    Client := none,
    DeployerKey := some {},
    Confirm := fun _ _ w => some ((0, none), w),
    Users := [] }

/-- The struct `EVMChain`, declared in a file of the package that is not part of the
sources at hand; its three fields are the ones `generateMemoryChain` reads. -/
structure EVMChain where
  Backend : SimulatedBackend
  DeployerKey : TransactOpts
  Users : List (Option TransactOpts)
  deriving DecidableEq, Repr

/-- The functions of other files and packages that `generateMemoryChain` calls. -/
structure Env (β : Type) where
  GetChainDetailsByChainIDAndFamily : String → String → Except GoError ChainDetails
  NewBackend : SimulatedBackend → Backend β
  GetErrorReasonFromTx : SimulatedBackend → Address → Transaction → Receipt →
    β → (String × Option GoError) × β

/-- The constant `chainsel.FamilyEVM`. -/
def FamilyEVM : String := "evm"

/-- The message of the error returned for a reverted transaction whose revert reason was
decoded. -/
def revertedReasonMsg (tx : Transaction) (errReason : String) (chainInfo : ChainDetails) :
    String :=
  "tx " ++ tx.Hash.Hex ++ " reverted,error reason: " ++ errReason ++ " chain "
    ++ chainInfo.ChainName

/-- The message of the error returned for a reverted transaction whose revert reason
could not be decoded. -/
def revertedUndecodedMsg (tx : Transaction) (chainInfo : ChainDetails) : String :=
  "tx " ++ tx.Hash.Hex ++ " reverted, could not decode error reason chain "
    ++ chainInfo.ChainName

/-- The loop of the `Confirm` closure built by `generateMemoryChain` (the transaction is
not nil), run for at most `fuel` iterations. -/
def confirmLoop {β : Type} (env : Env β) (chain : EVMChain) (chainInfo : ChainDetails)
    (backend : Backend β) (tx : Transaction) : Nat → ChainWorld β → ConfirmResult β
  | 0, _ => none
  | fuel + 1, w =>
    let b1 := backend.Commit w.backend
    let q := backend.TransactionReceipt tx.Hash b1
    let calls1 := w.calls ++ [Call.Commit, Call.TransactionReceipt tx.Hash]
    match q.1 with
    | .error err =>
      confirmLoop env chain chainInfo backend tx fuel
        { backend := q.2,
          calls := calls1 ++
            [Call.Log ["failed to get receipt", "chain", chainInfo.ChainName, err.Error]] }
    | .ok receipt =>
      if receipt.Status = 0 then
        let g := env.GetErrorReasonFromTx chain.Backend chain.DeployerKey.From tx receipt q.2
        let errReason := g.1.1
        let err := g.1.2
        let w1 : ChainWorld β :=
          { backend := g.2,
            calls := calls1 ++ [Call.GetErrorReasonFromTx chain.DeployerKey.From tx receipt] }
        if err.isNone && errReason != "" then
          some ((0, some (.errorString (revertedReasonMsg tx errReason chainInfo))), w1)
        else
          some ((0, some (.errorString (revertedUndecodedMsg tx chainInfo))), w1)
      else
        some ((Uint64 receipt.BlockNumber, none), { backend := q.2, calls := calls1 })

/-- The `Confirm` closure built by `generateMemoryChain` for one input chain. -/
def generatedConfirm {β : Type} (env : Env β) (chain : EVMChain) (chainInfo : ChainDetails)
    (backend : Backend β) (tx : Option Transaction) (fuel : Nat) (w : ChainWorld β) :
    ConfirmResult β :=
  match tx with
  | none =>
    some ((0, some (.errorString
      ("tx was nil, nothing to confirm, chain " ++ chainInfo.ChainName))), w)
  | some tx => confirmLoop env chain chainInfo backend tx fuel w

/-- The body of the loop of `generateMemoryChain` after the chain details were found:
the `deployment.Chain` stored for one input chain. -/
def generatedChain {β : Type} (env : Env β) (chain : EVMChain) (chainInfo : ChainDetails) :
    Chain β :=
  let backend := env.NewBackend chain.Backend
  { Selector := chainInfo.ChainSelector,
    Client := some backend,
    DeployerKey := some chain.DeployerKey,
    Confirm := generatedConfirm env chain chainInfo backend,
    Users := chain.Users }

/-- A Go map with `uint64` keys. -/
abbrev GoMap (α : Type) := Nat → Option α

/-- The empty map `make(map[uint64]T)`. -/
def GoMap.empty {α : Type} : GoMap α := fun _ => none

/-- The assignment `m[k] = v`. -/
def GoMap.set {α : Type} (m : GoMap α) (k : Nat) (v : α) : GoMap α :=
  fun k1 => if k1 = k then some v else m k1

/-- The loop of `generateMemoryChain` over the entries of the input map, given in the
order in which they are visited; `none` when `require.NoError` stops the test. -/
def generateMemoryChainLoop {β : Type} (env : Env β) :
    List (Nat × EVMChain) → GoMap (Chain β) → Option (GoMap (Chain β))
  | [], chains => some chains
  | (cid, chain) :: rest, chains =>
    match env.GetChainDetailsByChainIDAndFamily (Nat.repr cid) FamilyEVM with
    | .error _ => none
    | .ok chainInfo =>
      generateMemoryChainLoop env rest (chains.set chainInfo.ChainSelector
        (generatedChain env chain chainInfo))

/-- The function `generateMemoryChain`. -/
def generateMemoryChain {β : Type} (env : Env β) (inputs : List (Nat × EVMChain)) :
    Option (GoMap (Chain β)) :=
  generateMemoryChainLoop env inputs GoMap.empty

/-- The receipt found by the poll number `k` (counted from 0) of a `Confirm` started in
backend state `b`, provided the polls before it all failed; a poll commits a block and
then queries the receipt. -/
def firstReceipt {β : Type} (backend : Backend β) (hash : Hash) : Nat → β → Option Receipt
  | 0, b =>
    match (backend.TransactionReceipt hash (backend.Commit b)).1 with
    | .ok receipt => some receipt
    | .error _ => none
  | k + 1, b =>
    match (backend.TransactionReceipt hash (backend.Commit b)).1 with
    | .ok _ => none
    | .error _ =>
      firstReceipt backend hash k (backend.TransactionReceipt hash (backend.Commit b)).2

/-- A sample backend whose state is the height of its chain: a receipt is found from
height 3 on, in block 3, with the status given. -/
def sampleBackend (status : Nat) : Backend Nat :=
  { Commit := fun b => b + 1,
    TransactionReceipt := fun _ b =>
      if 3 ≤ b then (.ok { Status := status, BlockNumber := 3 }, b)
      else (.error (.errorString "not found"), b) }

/-- A sample environment that knows the chain 1337 only. -/
def sampleEnv (status : Nat) : Env Nat :=
  { GetChainDetailsByChainIDAndFamily := fun id _ =>
      if id = "1337" then .ok { ChainSelector := 3379446385462418246, ChainName := "geth-testnet" }
      else .error (.errorString "unknown chain"),
    NewBackend := fun _ => sampleBackend status,
    GetErrorReasonFromTx := fun _ _ _ _ b => (("", some (.errorString "no reason")), b) }

/-- A sample environment like `sampleEnv 0`, in which the reason of the revert is decoded
as "out of gas". -/
def sampleEnvDecoded : Env Nat :=
  { GetChainDetailsByChainIDAndFamily := (sampleEnv 0).GetChainDetailsByChainIDAndFamily,
    NewBackend := fun _ => sampleBackend 0,
    GetErrorReasonFromTx := fun _ _ _ _ b => (("out of gas", none), b) }

/-- A sample input chain. -/
def sampleEVMChain : EVMChain :=
  { Backend := { id := 0 }, DeployerKey := { From := { value := 1 } }, Users := [] }

/-- The details of the sample chain. -/
def sampleDetails : ChainDetails :=
  { ChainSelector := 3379446385462418246, ChainName := "geth-testnet" }

/-- The map `generateMemoryChain` builds from the sample input chain. -/
def sampleChains (status : Nat) : GoMap (Chain Nat) :=
  GoMap.empty.set 3379446385462418246
    (generatedChain (sampleEnv status) sampleEVMChain sampleDetails)

/-- A sample state: height 0, no call made. -/
def sampleChainWorld : ChainWorld Nat :=
  { backend := 0, calls := [] }

end memory

/-! ## `memory.NewNodes`: the ports of the nodes -/

namespace memory

/-- One call of `NewNode`, by the two arguments that vary between calls: the port and
the bootstrap flag. The field `index` records which element of `ports` the port was read
from. -/
structure NodeCall where
  index : Int
  port : Int
  bootstrap : Bool
  deriving DecidableEq, Repr

/-- The element `ports[i]` of a slice; `none` when the index is out of range (the index
expression panics). -/
def portAt (ports : List Int) (i : Int) : Option Int :=
  if i < 0 then none else ports[i.toNat]?

/-- The calls of `NewNode` made by one of the two loops of `NewNodes`, for the values
`idx` of the loop variable in turn: the call number `i` reads `ports[offset + i]`. The
result is `none` when an index is out of range. -/
def newNodeCalls (ports : List Int) (bootstrap : Bool) (offset : Int) :
    List Nat → Option (List NodeCall)
  | [] => some []
  | i :: rest =>
    match portAt ports (offset + (i : Int)) with
    | none => none
    | some port =>
      match newNodeCalls ports bootstrap offset rest with
      | none => none
      | some calls => some ({ index := offset + (i : Int), port := port,
                              bootstrap := bootstrap } :: calls)

/-- A Go map with string keys. -/
abbrev StrMap (α : Type) := String → Option α

/-- The assignment `m[k] = v` on a map with string keys. -/
def StrMap.set {α : Type} (m : StrMap α) (k : String) (v : α) : StrMap α :=
  fun k1 => if k1 = k then some v else m k1

/-- The functions of other files and packages that `NewNodes` calls; the type `N` of the
nodes is declared in a file of the package that is not part of the sources at hand. The
arguments of `NewNode` that are the same in every call are left out. -/
structure NodeDeps (N : Type) where
  GetN : Int → List Int
  NewNode : Int → Bool → N
  PeerID : N → String

/-- What `NewNodes` did: the number of ports it asked `freeport.GetN` for (`none` when
it did not ask), the calls of `NewNode` in order, and the map it returns. -/
structure NewNodesResult (N : Type) where
  requested : Option Int
  calls : List NodeCall
  nodesByPeerID : StrMap N

/-- The function `NewNodes`; `none` when an index into `ports` is out of range. A loop
`for i := 0; i < n; i++` runs over `List.range n.toNat`. -/
def NewNodes {N : Type} (d : NodeDeps N) (numNodes numBootstraps : Int) :
    Option (NewNodesResult N) :=
  if numNodes + numBootstraps = 0 then
    some { requested := none, calls := [], nodesByPeerID := fun _ => none }
  else
    let ports := d.GetN (numBootstraps + numNodes)
    -- bootstrap nodes must be separate nodes from plugin nodes
    match newNodeCalls ports true 0 (List.range numBootstraps.toNat) with
    | none => none
    | some bootstraps =>
      -- grab port offset by numBootstraps, since above loop also takes some ports.
      match newNodeCalls ports false numBootstraps (List.range numNodes.toNat) with
      | none => none
      | some plugins =>
        some { requested := some (numBootstraps + numNodes),
               calls := bootstraps ++ plugins,
               nodesByPeerID := (bootstraps ++ plugins).foldl
                 (fun m c => m.set (d.PeerID (d.NewNode c.port c.bootstrap))
                   (d.NewNode c.port c.bootstrap)) (fun _ => none) }

/-- Sample dependencies: the free ports are 9000, 9001, ... and a node is its port with
its flag. -/
def sampleNodeDeps : NodeDeps (Int × Bool) :=
  { GetN := fun n => (List.range n.toNat).map (fun i => 9000 + (i : Int)),
    NewNode := fun port bootstrap => (port, bootstrap),
    PeerID := fun n => "p2p_" ++ formatD n.1 }

end memory

/-! ## The Broadcaster of the transaction manager: the in-flight limit -/

namespace txmgr

open legacyevm

/-- The lifecycle states of an Operation (§3 of the specification). -/
inductive OperationState where
  | unstarted
  | inFlight
  | confirmed
  | finalized
  | fatalError
  deriving DecidableEq, Repr

/-- An Operation as recorded in the Store, with the nonce of its Attempts. -/
structure Operation where
  id : Nat
  request : SubmitRequest
  nonce : Nat
  state : OperationState
  deriving DecidableEq, Repr

/-- The reasons for which `submit` rejects (§4.2 of the specification). -/
inductive Reason where
  | inFlightLimitExceeded
  | queueLimitExceeded
  | keyDisabled
  deriving DecidableEq, Repr

/-- The answer of `submit`: the identifier of the accepted Operation, or a rejection with
its reason. -/
inductive Submitted where
  | accepted (id : Nat)
  | rejected (reason : Reason)
  deriving DecidableEq, Repr

/-- The state of the manager: the configured in-flight limit (the value
`cfg.Transactions().MaxInFlight()` that `newEvmTxm` hands to `txmgr.NewTxm`), the Store
and the nonce counter of each Key. -/
structure Manager where
  maxInFlight : Nat
  ops : List Operation
  nextNonce : Nat → Nat

/-- Whether an Operation belongs to the Key and is unstarted or in-flight. -/
def Operation.pending (key : Nat) (o : Operation) : Bool :=
  o.request.key == key && (o.state == .unstarted || o.state == .inFlight)

/-- The number of Operations of a Key that are unstarted or in-flight. -/
def pendingCount (ops : List Operation) (key : Nat) : Nat :=
  ops.countP (Operation.pending key)

/-- Modelled from the spec: the Broadcaster (`txmgr.NewTxm` and what it builds) is not
part of the sources at hand. By §3 and §4.2 a submission that would take the number of
unstarted or in-flight Operations of its Key over the configured maximum is rejected at
submission time with the reason "in-flight limit exceeded" and nothing is recorded; an
accepted submission reserves the next nonce of the Key (§4.1) and is recorded as
in-flight. The two other rejections of §4.2 (queue limit, Key disabled or out of sync),
for which the specification gives no rule, are the parameter `other`. -/
def submit (other : Manager → SubmitRequest → Option Reason) (m : Manager)
    (req : SubmitRequest) : Submitted × Manager :=
  if m.maxInFlight ≤ pendingCount m.ops req.key then
    (.rejected .inFlightLimitExceeded, m)
  else
    match other m req with
    | some reason => (.rejected reason, m)
    | none =>
      (.accepted m.ops.length,
        { maxInFlight := m.maxInFlight,
          ops := m.ops ++ [{ id := m.ops.length, request := req,
                             nonce := m.nextNonce req.key, state := .inFlight }],
          nextNonce := fun k => if k = req.key then m.nextNonce req.key + 1
                                else m.nextNonce k })

/-- A sequence of `submit` calls, oldest first: the answers and the state left. -/
def submitAll (other : Manager → SubmitRequest → Option Reason) :
    Manager → List SubmitRequest → List Submitted × Manager
  | m, [] => ([], m)
  | m, req :: rest =>
    let r := submit other m req
    let rs := submitAll other r.2 rest
    (r.1 :: rs.1, rs.2)

/-- A sample manager: limit 2, empty Store, every Key at nonce 7. -/
def sampleManager : Manager :=
  { maxInFlight := 2, ops := [], nextNonce := fun _ => 7 }

/-- No rejection for the reasons left open. -/
def noOther : Manager → SubmitRequest → Option Reason := fun _ _ => none

end txmgr

/-! ## `promwrapper`: the value of a counter -/

namespace promwrapper

/-- What one metric write adds to the counter of the vector `vec` under `labels`. -/
def MetricEvent.added (vec : Vec) (labels : List String) : MetricEvent → Int
  | .Add v l n => if v = vec ∧ l = labels then n else 0
  | .Observe _ _ _ => 0

/-- The value of the counter of the vector `vec` under `labels` after the writes
`metrics`, the counter starting at 0. -/
def counterValue (vec : Vec) (labels : List String) (metrics : List MetricEvent) : Int :=
  (metrics.map (MetricEvent.added vec labels)).sum

/-- The sample plugin behind the wrapper built for chain "1337" and plugin "ccip". -/
def sampleWrapped : reportingPlugin Nat Unit :=
  newReportingPlugin samplePlugin "1337" "ccip" Vec.promOCR3ReportsGenerated
    Vec.promOCR3Durations

end promwrapper

/-! ## `smoke.pickFirstAvailableUser` -/

namespace smoke

open memory

/-- The struct `changeset.DeployedEnv`, by the field `pickFirstAvailableUser` reads: the
users of each chain. A chain without an entry has the nil slice of users. -/
structure DeployedEnv where
  Users : GoMap (List (Option TransactOpts))

/-- The struct `deployment.Environment`, by the field `pickFirstAvailableUser` reads. -/
structure Environment (β : Type) where
  Chains : GoMap (Chain β)

/-- The loop of `pickFirstAvailableUser` over the users left, `deployerKey` being
`e.Chains[sourceChain].DeployerKey`. The result is `none` when the nil deployer key of a
missing or placeholder chain is dereferenced. -/
def pickLoop (deployerKey : Option TransactOpts) :
    List (Option TransactOpts) → Option (Option TransactOpts × Option GoError)
  | [] => some (none, some (.errorString "user not found"))
  | none :: rest => pickLoop deployerKey rest
  | some user :: rest =>
    match deployerKey with
    | none => none
    | some key =>
      if user.From ≠ key.From then some (some user, none)
      else pickLoop deployerKey rest

/-- The function `pickFirstAvailableUser`. -/
def pickFirstAvailableUser {β : Type} (tenv : DeployedEnv) (sourceChain : Nat)
    (e : Environment β) : Option (Option TransactOpts × Option GoError) :=
  pickLoop ((e.Chains sourceChain).bind (fun c => c.DeployerKey))
    ((tenv.Users sourceChain).getD [])

/-- A sample environment: the placeholder chain 5, whose deployer has the zero
address. -/
def sampleEnvironment : Environment Nat :=
  { Chains := GoMap.empty.set 5 (NewMemoryChain 5) }

/-- Sample users of chain 5: a nil entry, the deployer, and two other accounts. -/
def sampleUsers : DeployedEnv :=
  { Users := GoMap.empty.set 5
      [none, some { From := { value := 0 } }, some { From := { value := 2 } },
       some { From := { value := 3 } }] }

/-- Sample users of chain 5 none of which can be picked. -/
def deployerOnly : DeployedEnv :=
  { Users := GoMap.empty.set 5 [none, some { From := { value := 0 } }] }

end smoke

/-! ## `keystone_test.requireChains` -/

namespace keystone_test

/-- The struct `models.Network`, by the fields the test reads; a `models.ChainType` is a
string. -/
structure Network where
  ChainID : String
  ChainType : String
  deriving DecidableEq, Repr

/-- The struct `models.NodeChainConfig`, by the field the test reads. -/
structure NodeChainConfig where
  Network : Network
  deriving DecidableEq, Repr

/-- The struct `models.Node`, by the fields the test reads. -/
structure Node where
  ID : String
  ChainConfigs : List NodeChainConfig
  deriving DecidableEq, Repr

/-- The struct `models.NodeOperator`, by the fields the test reads. -/
structure NodeOperator where
  Name : String
  Nodes : List Node
  deriving DecidableEq, Repr

/-- A `map[models.ChainType]struct{}`, by the list of its keys. -/
abbrev ChainTypeSet := List String

/-- The assignment `m[c] = struct{}{}`. -/
def ChainTypeSet.add (m : ChainTypeSet) (c : String) : ChainTypeSet :=
  if c ∈ m then m else m ++ [c]

/-- The comparison `require.EqualValues` makes of two such maps: they have the same
keys. -/
def ChainTypeSet.same (a b : ChainTypeSet) : Bool :=
  a.all (fun c => decide (c ∈ b)) && b.all (fun c => decide (c ∈ a))

/-- The first loop of `requireChains`: the map `want`. -/
def wantOf (cs : List String) : ChainTypeSet :=
  cs.foldl ChainTypeSet.add []

/-- The two inner loops of `requireChains` for one node operator: the chain types of all
chain configurations of all its nodes are added to `got`. -/
def addChainTypes (got : ChainTypeSet) (nop : NodeOperator) : ChainTypeSet :=
  nop.Nodes.foldl (fun g node =>
    node.ChainConfigs.foldl (fun g1 cc => g1.add cc.Network.ChainType) g) got

/-- The outer loop of `requireChains` over the node operators left; `got` is the map
declared before the loop. The result is whether every `require.EqualValues` held. -/
def requireLoop (want : ChainTypeSet) : List NodeOperator → ChainTypeSet → Bool
  | [], _ => true
  | nop :: rest, got =>
    if want.same (addChainTypes got nop) then requireLoop want rest (addChainTypes got nop)
    else false

/-- The function `requireChains`: whether the test goes on. -/
def requireChains (donNops : List NodeOperator) (cs : List String) : Bool :=
  requireLoop (wantOf cs) donNops []

/-- The chain types configured on the nodes of one node operator. -/
def ownChainTypes (nop : NodeOperator) : ChainTypeSet :=
  addChainTypes [] nop

/-- A sample node operator with one node on an EVM chain and one on an Aptos chain. -/
def nopBoth : NodeOperator :=
  { Name := "both",
    Nodes := [{ ID := "n1", ChainConfigs := [{ Network := { ChainID := "1", ChainType := "EVM" } }] },
              { ID := "n2", ChainConfigs := [{ Network := { ChainID := "2", ChainType := "APTOS" } }] }] }

/-- A sample node operator whose only node is on an EVM chain. -/
def nopEvmOnly : NodeOperator :=
  { Name := "evm-only",
    Nodes := [{ ID := "n3", ChainConfigs := [{ Network := { ChainID := "1", ChainType := "EVM" } }] }] }

end keystone_test

/-! ## Theorems -/

namespace legacyevm

/-- C1: with `evmRPCEnabled = false`, whatever the other arguments and the constructors
are, `newEvmTxm` returns the disabled-chain stub, a nil estimator and a nil error, and
makes no external call: in particular no estimator and no transaction manager is built
or generated. -/
theorem newEvmTxm_disabled_returns_stub (d : Deps) (a : Args) (h : a.evmRPCEnabled = false) :
    (∃ n : NullTxManager, (newEvmTxm d a).txm = some (.null n)) ∧
    (newEvmTxm d a).estimator = none ∧
    (newEvmTxm d a).err = none ∧
    (newEvmTxm d a).calls = [] ∧
    (∀ c ∈ (newEvmTxm d a).calls, c.isEstimatorCall = false ∧ c.isTxmCall = false) := by
  simp [newEvmTxm, h]

/-- Witness of C1 on a disabled chain 5 with both generators set. -/
theorem newEvmTxm_disabled_returns_stub_witness :
    (sampleArgs 5 false).evmRPCEnabled = false ∧
    (sampleArgs 5 false).opts.GenGasEstimator.isSome = true ∧
    (sampleArgs 5 false).opts.GenTxManager.isSome = true ∧
    (newEvmTxm sampleDeps (sampleArgs 5 false)).txm
      = some (.null { ErrMsg := "Ethereum is disabled for chain 5" }) ∧
    (newEvmTxm sampleDeps (sampleArgs 5 false)).calls = [] :=
  ⟨rfl, rfl, rfl, by decide, (newEvmTxm_disabled_returns_stub sampleDeps (sampleArgs 5 false) rfl).2.2.2.1⟩

/-- The model of the verb `%d` renders an integer as Lean itself does: the decimal
digits, after a minus sign for a negative value. -/
theorem formatD_eq_toString (n : Int) : formatD n = toString n := by
  cases n with
  | ofNat m =>
    have h : ¬ (Int.ofNat m < 0) := Int.not_lt.mpr (Int.ofNat_nonneg m)
    simp only [formatD, h, if_false]
    rfl
  | negSucc m =>
    have h : Int.negSucc m < 0 := Int.negSucc_lt_zero m
    simp only [formatD, h, if_true]
    rfl

/-- C2: on a disabled chain the explanation of the stub is the fixed text followed by
the decimal chain identifier (the base-10 digits of a non-negative identifier, and a
minus sign before the digits of a negative one), so two calls with the same chain
identifier carry the same explanation, whatever the constructors and the other arguments
are. -/
theorem newEvmTxm_ErrMsg_fixed_per_chain (d d1 : Deps) (a a1 : Args)
    (h : a.evmRPCEnabled = false) (h1 : a1.evmRPCEnabled = false)
    (hid : a.cfg.ChainID = a1.cfg.ChainID) :
    ∃ n n1 : NullTxManager,
      (newEvmTxm d a).txm = some (.null n) ∧
      (newEvmTxm d1 a1).txm = some (.null n1) ∧
      n.ErrMsg = "Ethereum is disabled for chain " ++ formatD a.cfg.ChainID ∧
      n.ErrMsg = "Ethereum is disabled for chain " ++ toString a.cfg.ChainID ∧
      (∀ k : Nat, a.cfg.ChainID = (k : Int) →
        n.ErrMsg = "Ethereum is disabled for chain " ++ String.mk (Nat.toDigits 10 k)) ∧
      (∀ k : Nat, a.cfg.ChainID = -((k : Int) + 1) →
        n.ErrMsg = "Ethereum is disabled for chain " ++
          ("-" ++ String.mk (Nat.toDigits 10 (k + 1)))) ∧
      n1.ErrMsg = n.ErrMsg := by
  refine ⟨{ ErrMsg := "Ethereum is disabled for chain " ++ formatD a.cfg.ChainID },
    { ErrMsg := "Ethereum is disabled for chain " ++ formatD a1.cfg.ChainID },
    ?_, ?_, rfl, ?_, ?_, ?_, ?_⟩
  · simp [newEvmTxm, h]
  · simp [newEvmTxm, h1]
  · simp only [formatD_eq_toString]
  · intro k hk
    have hn : ¬ ((k : Int) < 0) := Int.not_lt.mpr (Int.ofNat_nonneg k)
    simp only [hk, formatD, hn, if_false, Int.natAbs_ofNat]
    rfl
  · intro k hk
    have hneg : -((k : Int) + 1) < 0 := by omega
    have habs : (-((k : Int) + 1)).natAbs = k + 1 := by omega
    simp only [hk, formatD, hneg, if_true, habs]
    rfl
  · simp [hid]

/-- Witness of C2: two disabled calls for chain 42 that differ in every other argument
and in the constructors both carry the text ending in "42"; the identifiers 11155111 and
-7 are rendered digit by digit as well. -/
theorem newEvmTxm_ErrMsg_fixed_per_chain_witness :
    (∃ n n1 : NullTxManager,
      (newEvmTxm sampleDeps (sampleArgs 42 false)).txm = some (.null n) ∧
      (newEvmTxm failingDeps (plainArgs 42 false)).txm = some (.null n1) ∧
      n.ErrMsg = "Ethereum is disabled for chain 42" ∧
      n1.ErrMsg = "Ethereum is disabled for chain 42") ∧
    (newEvmTxm failingDeps (plainArgs 11155111 false)).txm
      = some (.null { ErrMsg := "Ethereum is disabled for chain 11155111" }) ∧
    (newEvmTxm sampleDeps (sampleArgs (-7) false)).txm
      = some (.null { ErrMsg := "Ethereum is disabled for chain -7" }) ∧
    (newEvmTxm sampleDeps (sampleArgs 0 false)).txm
      = some (.null { ErrMsg := "Ethereum is disabled for chain 0" }) := by
  obtain ⟨n, n1, hn, hn1, hmsg, _, _, _, hsame⟩ :=
    newEvmTxm_ErrMsg_fixed_per_chain sampleDeps failingDeps (sampleArgs 42 false)
      (plainArgs 42 false) rfl rfl rfl
  have hlit : n.ErrMsg = "Ethereum is disabled for chain 42" := by
    rw [hmsg]
    decide
  exact ⟨⟨n, n1, hn, hn1, hlit, by rw [hsame, hlit]⟩, by decide, by decide, by decide⟩

/-- A sequence of `submit` calls on the stub leaves the Store as it was and answers every
call with the rejection carrying the stub's explanation. -/
theorem NullTxManager.submitAll_spec (n : NullTxManager) (reqs : List SubmitRequest)
    (store : Store) :
    n.submitAll reqs store
      = (List.replicate reqs.length (.rejected (.errorString n.ErrMsg)), store) := by
  induction reqs generalizing store with
  | nil => rfl
  | cons req rest ih =>
    simp [NullTxManager.submitAll, NullTxManager.submit, ih, List.replicate_succ]

/-- C3: the manager `newEvmTxm` returns for a disabled chain is the stub, and on the stub
every sequence of `submit` calls started with an empty Store answers each call with the
same chain-disabled error and ends with an empty Store. -/
theorem newEvmTxm_stub_rejects_all (d : Deps) (a : Args) (h : a.evmRPCEnabled = false) :
    ∃ n : NullTxManager,
      (newEvmTxm d a).txm = some (.null n) ∧
      ∀ reqs : List SubmitRequest,
        (n.submitAll reqs []).2 = [] ∧
        (n.submitAll reqs []).1.length = reqs.length ∧
        ∀ r ∈ (n.submitAll reqs []).1,
          r = .rejected (.errorString
            ("Ethereum is disabled for chain " ++ formatD a.cfg.ChainID)) := by
  refine ⟨{ ErrMsg := "Ethereum is disabled for chain " ++ formatD a.cfg.ChainID }, ?_, ?_⟩
  · simp [newEvmTxm, h]
  · intro reqs
    rw [NullTxManager.submitAll_spec]
    refine ⟨rfl, by simp, ?_⟩
    intro r hr
    exact (List.mem_replicate.mp hr).2

/-- Witness of C3: three submissions to the stub of the disabled chain 5. -/
theorem newEvmTxm_stub_rejects_all_witness :
    ∃ n : NullTxManager,
      (newEvmTxm sampleDeps (sampleArgs 5 false)).txm = some (.null n) ∧
      (n.submitAll [⟨1, 2, 3, [], 1⟩, ⟨1, 2, 4, [0], 1⟩, ⟨9, 2, 3, [], 0⟩] []).2 = [] ∧
      (n.submitAll [⟨1, 2, 3, [], 1⟩, ⟨1, 2, 4, [0], 1⟩, ⟨9, 2, 3, [], 0⟩] []).1.length = 3 ∧
      ∀ r ∈ (n.submitAll [⟨1, 2, 3, [], 1⟩, ⟨1, 2, 4, [0], 1⟩, ⟨9, 2, 3, [], 0⟩] []).1,
        r = .rejected (.errorString "Ethereum is disabled for chain 5") := by
  obtain ⟨n, hn, hall⟩ := newEvmTxm_stub_rejects_all sampleDeps (sampleArgs 5 false) rfl
  exact ⟨n, hn, hall _⟩

/-- C7: on the enabled path with no `opts.GenGasEstimator`, a failure `e` of
`gas.NewEstimator` makes `newEvmTxm` return a nil manager, a nil estimator and an error
that wraps `e` under the message "failed to initialize estimator: " followed by the
message of `e`; no transaction manager is built or generated. -/
theorem newEvmTxm_estimator_failure (d : Deps) (a : Args) (est : Option EvmFeeEstimator)
    (e : GoError) (hen : a.evmRPCEnabled = true) (hgen : a.opts.GenGasEstimator = none)
    (hfail : d.NewEstimator (estimatorArgs a) = (est, some e)) :
    (newEvmTxm d a).txm = none ∧
    (newEvmTxm d a).estimator = none ∧
    (∃ err, (newEvmTxm d a).err = some err ∧
      err.Error = "failed to initialize estimator: " ++ e.Error ∧
      err.Unwrap = some e) ∧
    (∀ c ∈ (newEvmTxm d a).calls, c.isTxmCall = false) := by
  simp [newEvmTxm, hen, hgen, hfail, Errorf_w, GoError.Error, GoError.Unwrap, Call.isTxmCall]

/-- Witness of C7: the estimator constructor fails with "boom" on the enabled chain 5. -/
theorem newEvmTxm_estimator_failure_witness :
    (plainArgs 5 true).evmRPCEnabled = true ∧
    (newEvmTxm failingDeps (plainArgs 5 true)).txm = none ∧
    (newEvmTxm failingDeps (plainArgs 5 true)).estimator = none ∧
    (∃ err, (newEvmTxm failingDeps (plainArgs 5 true)).err = some err ∧
      err.Error = "failed to initialize estimator: " ++ (GoError.errorString "boom").Error ∧
      err.Unwrap = some (.errorString "boom")) ∧
    (∀ c ∈ (newEvmTxm failingDeps (plainArgs 5 true)).calls, c.isTxmCall = false) :=
  ⟨rfl, newEvmTxm_estimator_failure failingDeps (plainArgs 5 true) none (.errorString "boom")
    rfl rfl rfl⟩

end legacyevm

namespace promwrapper

open ocr3types

section decorator

variable {σ RI : Type} (fname : functionType → String)

/-- The text `FormatBool` gives is "true" exactly for `true`. -/
theorem FormatBool_eq_true (b : Bool) : FormatBool b = "true" ↔ b = true := by
  cases b <;> simp [FormatBool]

/-- C4: each of the seven wrapper methods returns exactly the result and the error the
wrapped plugin returns for the same arguments in the same world (`ValidateObservation`:
exactly the wrapped error), and leaves the wrapped components in the state the wrapped
call left them in. -/
theorem reportingPlugin_transparent (p : reportingPlugin σ RI) (ctx : Context)
    (outctx : OutcomeContext) (query : Bytes) (ao : AttributedObservation)
    (aos : Option (List AttributedObservation)) (seqNr : Nat) (outcome : Bytes)
    (reportWithInfo : ReportWithInfo RI) (w : World σ) :
    ((p.Query fname ctx outctx w).1 = (p.ReportingPlugin.Query ctx outctx w).1 ∧
      (p.Query fname ctx outctx w).2.state = (p.ReportingPlugin.Query ctx outctx w).2.state) ∧
    ((p.Observation fname ctx outctx query w).1
        = (p.ReportingPlugin.Observation ctx outctx query w).1 ∧
      (p.Observation fname ctx outctx query w).2.state
        = (p.ReportingPlugin.Observation ctx outctx query w).2.state) ∧
    ((p.ValidateObservation fname ctx outctx query ao w).1
        = (p.ReportingPlugin.ValidateObservation ctx outctx query ao w).1 ∧
      (p.ValidateObservation fname ctx outctx query ao w).2.state
        = (p.ReportingPlugin.ValidateObservation ctx outctx query ao w).2.state) ∧
    ((p.Outcome fname ctx outctx query aos w).1
        = (p.ReportingPlugin.Outcome ctx outctx query aos w).1 ∧
      (p.Outcome fname ctx outctx query aos w).2.state
        = (p.ReportingPlugin.Outcome ctx outctx query aos w).2.state) ∧
    ((p.Reports fname ctx seqNr outcome w).1
        = (p.ReportingPlugin.Reports ctx seqNr outcome w).1 ∧
      (p.Reports fname ctx seqNr outcome w).2.state
        = (p.ReportingPlugin.Reports ctx seqNr outcome w).2.state) ∧
    ((p.ShouldAcceptAttestedReport fname ctx seqNr reportWithInfo w).1
        = (p.ReportingPlugin.ShouldAcceptAttestedReport ctx seqNr reportWithInfo w).1 ∧
      (p.ShouldAcceptAttestedReport fname ctx seqNr reportWithInfo w).2.state
        = (p.ReportingPlugin.ShouldAcceptAttestedReport ctx seqNr reportWithInfo w).2.state) ∧
    ((p.ShouldTransmitAcceptedReport fname ctx seqNr reportWithInfo w).1
        = (p.ReportingPlugin.ShouldTransmitAcceptedReport ctx seqNr reportWithInfo w).1 ∧
      (p.ShouldTransmitAcceptedReport fname ctx seqNr reportWithInfo w).2.state
        = (p.ReportingPlugin.ShouldTransmitAcceptedReport ctx seqNr reportWithInfo w).2.state) :=
  ⟨⟨rfl, rfl⟩, ⟨rfl, rfl⟩, ⟨rfl, rfl⟩, ⟨rfl, rfl⟩, ⟨rfl, rfl⟩, ⟨rfl, rfl⟩, ⟨rfl, rfl⟩⟩

/-- C5: a call through `withObservedExecution` runs the wrapped call once, from the world
it was given, and adds to what that call left exactly one observation, on the duration
histogram, labelled with the wrapper's chain, its plugin name, the name of the function
and "true" when the wrapped call returned a nil error, "false" when it failed; so the
observations after each of the seven wrapper methods are those after the wrapped method
followed by that single one, under the method's own function name. -/
theorem withObservedExecution_records_once {R : Type} (p : reportingPlugin σ RI)
    (function : functionType) (exec : Exec σ R) (ctx : Context)
    (outctx : OutcomeContext) (query : Bytes) (ao : AttributedObservation)
    (aos : Option (List AttributedObservation)) (seqNr : Nat) (outcome : Bytes)
    (reportWithInfo : ReportWithInfo RI) (w : World σ) :
    ((withObservedExecution fname p function exec w).2.state = (exec w).2.state ∧
      (withObservedExecution fname p function exec w).2.now = (exec w).2.now ∧
      (∃ flag : String,
        (withObservedExecution fname p function exec w).2.metrics = (exec w).2.metrics ++
          [.Observe p.durations [p.chainID, p.plugin, fname function, flag]
            ((exec w).2.now - w.now)] ∧
        (flag = "true" ↔ (exec w).1.2 = none) ∧
        (flag = "false" ↔ (exec w).1.2 ≠ none))) ∧
    ((p.Query fname ctx outctx w).2.metrics.filter MetricEvent.isObserve
        = (p.ReportingPlugin.Query ctx outctx w).2.metrics.filter MetricEvent.isObserve ++
          [.Observe p.durations
            [p.chainID, p.plugin, fname .query,
              FormatBool (p.ReportingPlugin.Query ctx outctx w).1.2.isNone]
            ((p.ReportingPlugin.Query ctx outctx w).2.now - w.now)] ∧
      (p.Observation fname ctx outctx query w).2.metrics.filter MetricEvent.isObserve
        = (p.ReportingPlugin.Observation ctx outctx query w).2.metrics.filter
            MetricEvent.isObserve ++
          [.Observe p.durations
            [p.chainID, p.plugin, fname .observation,
              FormatBool (p.ReportingPlugin.Observation ctx outctx query w).1.2.isNone]
            ((p.ReportingPlugin.Observation ctx outctx query w).2.now - w.now)] ∧
      (p.ValidateObservation fname ctx outctx query ao w).2.metrics.filter MetricEvent.isObserve
        = (p.ReportingPlugin.ValidateObservation ctx outctx query ao w).2.metrics.filter
            MetricEvent.isObserve ++
          [.Observe p.durations
            [p.chainID, p.plugin, fname .validateObservation,
              FormatBool (p.ReportingPlugin.ValidateObservation ctx outctx query ao w).1.isNone]
            ((p.ReportingPlugin.ValidateObservation ctx outctx query ao w).2.now - w.now)] ∧
      (p.Outcome fname ctx outctx query aos w).2.metrics.filter MetricEvent.isObserve
        = (p.ReportingPlugin.Outcome ctx outctx query aos w).2.metrics.filter
            MetricEvent.isObserve ++
          [.Observe p.durations
            [p.chainID, p.plugin, fname .outcome,
              FormatBool (p.ReportingPlugin.Outcome ctx outctx query aos w).1.2.isNone]
            ((p.ReportingPlugin.Outcome ctx outctx query aos w).2.now - w.now)] ∧
      (p.Reports fname ctx seqNr outcome w).2.metrics.filter MetricEvent.isObserve
        = (p.ReportingPlugin.Reports ctx seqNr outcome w).2.metrics.filter
            MetricEvent.isObserve ++
          [.Observe p.durations
            [p.chainID, p.plugin, fname .reports,
              FormatBool (p.ReportingPlugin.Reports ctx seqNr outcome w).1.2.isNone]
            ((p.ReportingPlugin.Reports ctx seqNr outcome w).2.now - w.now)] ∧
      (p.ShouldAcceptAttestedReport fname ctx seqNr reportWithInfo w).2.metrics.filter
          MetricEvent.isObserve
        = (p.ReportingPlugin.ShouldAcceptAttestedReport ctx seqNr reportWithInfo w).2.metrics.filter
            MetricEvent.isObserve ++
          [.Observe p.durations
            [p.chainID, p.plugin, fname .shouldAccept,
              FormatBool (p.ReportingPlugin.ShouldAcceptAttestedReport ctx seqNr
                reportWithInfo w).1.2.isNone]
            ((p.ReportingPlugin.ShouldAcceptAttestedReport ctx seqNr reportWithInfo w).2.now
              - w.now)] ∧
      (p.ShouldTransmitAcceptedReport fname ctx seqNr reportWithInfo w).2.metrics.filter
          MetricEvent.isObserve
        = (p.ReportingPlugin.ShouldTransmitAcceptedReport ctx seqNr
            reportWithInfo w).2.metrics.filter MetricEvent.isObserve ++
          [.Observe p.durations
            [p.chainID, p.plugin, fname .shouldTransmit,
              FormatBool (p.ReportingPlugin.ShouldTransmitAcceptedReport ctx seqNr
                reportWithInfo w).1.2.isNone]
            ((p.ReportingPlugin.ShouldTransmitAcceptedReport ctx seqNr reportWithInfo w).2.now
              - w.now)]) := by
  refine ⟨⟨rfl, rfl, FormatBool (exec w).1.2.isNone, rfl, ?_, ?_⟩, ?_⟩
  · rw [FormatBool_eq_true]; exact Option.isNone_iff_eq_none
  · cases h : (exec w).1.2 <;> simp [FormatBool]
  · simp [reportingPlugin.Query, reportingPlugin.Observation,
      reportingPlugin.ValidateObservation, reportingPlugin.Outcome, reportingPlugin.Reports,
      reportingPlugin.ShouldAcceptAttestedReport, reportingPlugin.ShouldTransmitAcceptedReport,
      reportingPlugin.trackReports, withObservedExecution, List.filter_append,
      MetricEvent.isObserve]

/-- Evaluation of C5 on the sample plugin: a failing `Observation` and a succeeding
`Reports` each leave one observation, flagged "false" and "true". -/
theorem withObservedExecution_records_once_witness :
    ((newReportingPlugin samplePlugin "1337" "ccip" Vec.promOCR3ReportsGenerated
        Vec.promOCR3Durations).Observation sampleNames ⟨0⟩ ⟨1, none, 0, 0⟩ none
        sampleWorld).2.metrics
      = [.Observe Vec.promOCR3Durations ["1337", "ccip", "observation", "false"] 5] ∧
    ((newReportingPlugin samplePlugin "1337" "ccip" Vec.promOCR3ReportsGenerated
        Vec.promOCR3Durations).Reports sampleNames ⟨0⟩ 1 none
        sampleWorld).2.metrics.filter MetricEvent.isObserve
      = [.Observe Vec.promOCR3Durations ["1337", "ccip", "reports", "true"] 5] ∧
    ((newReportingPlugin samplePlugin "1337" "ccip" Vec.promOCR3ReportsGenerated
        Vec.promOCR3Durations).Reports sampleNames ⟨0⟩ 1 none sampleWorld).2.state = 1 := by
  have h := (withObservedExecution_records_once sampleNames
    (newReportingPlugin samplePlugin "1337" "ccip" Vec.promOCR3ReportsGenerated
      Vec.promOCR3Durations) .reports (samplePlugin.Reports ⟨0⟩ 1 none)
    ⟨0⟩ ⟨1, none, 0, 0⟩ none ⟨none, 0⟩ none 1 none ⟨none, ()⟩ sampleWorld).2
  refine ⟨by decide, ?_, by decide⟩
  rw [h.2.2.2.2.1]
  decide

/-- C6: when the wrapped factory fails, `NewReportingPlugin` returns a nil plugin, the
zero info and the same error; when it succeeds, it returns a decorator around the plugin
the wrapped factory returned, labelled with the factory's chain and plugin name and
writing to the two package metrics, with the wrapped factory's info and a nil error. -/
theorem NewReportingPlugin_spec (r : ReportingPluginFactory σ RI) (ctx : Context)
    (config : ReportingPluginConfig) (w : World σ) :
    (∀ err : GoError, (r.origin.NewReportingPlugin ctx config w).1 = .error err →
      (r.NewReportingPlugin ctx config w).1 = (none, {}, some err)) ∧
    (∀ (plugin : ocr3types.ReportingPlugin σ RI) (info : ReportingPluginInfo),
      (r.origin.NewReportingPlugin ctx config w).1 = .ok (plugin, info) →
      ∃ wrapped : reportingPlugin σ RI,
        (r.NewReportingPlugin ctx config w).1 = (some wrapped, info, none) ∧
        wrapped.ReportingPlugin = plugin ∧
        wrapped.chainID = r.chainID ∧
        wrapped.plugin = r.plugin ∧
        wrapped.reportsGenerated = Vec.promOCR3ReportsGenerated ∧
        wrapped.durations = Vec.promOCR3Durations) ∧
    (r.NewReportingPlugin ctx config w).2 = (r.origin.NewReportingPlugin ctx config w).2 := by
  refine ⟨?_, ?_, ?_⟩
  · intro err h
    simp [ReportingPluginFactory.NewReportingPlugin, h]
  · intro plugin info h
    exact ⟨newReportingPlugin plugin r.chainID r.plugin Vec.promOCR3ReportsGenerated
      Vec.promOCR3Durations, by simp [ReportingPluginFactory.NewReportingPlugin, h],
      rfl, rfl, rfl, rfl, rfl⟩
  · rcases h : (r.origin.NewReportingPlugin ctx config w).1 with err | ⟨plugin, info⟩ <;>
      simp [ReportingPluginFactory.NewReportingPlugin, h]

/-- Witness of C6: a failing and a succeeding wrapped factory. -/
theorem NewReportingPlugin_spec_witness :
    ((NewReportingPluginFactory failFactory "1337" "ccip").NewReportingPlugin
        ⟨0⟩ ⟨0⟩ sampleWorld).1 = (none, {}, some (.errorString "no plugin")) ∧
    ∃ wrapped : reportingPlugin Nat Unit,
      ((NewReportingPluginFactory okFactory "1337" "ccip").NewReportingPlugin
        ⟨0⟩ ⟨0⟩ sampleWorld).1 = (some wrapped, { Name := "sample" }, none) ∧
      wrapped.ReportingPlugin = samplePlugin ∧
      wrapped.chainID = "1337" ∧
      wrapped.plugin = "ccip" ∧
      wrapped.reportsGenerated = Vec.promOCR3ReportsGenerated ∧
      wrapped.durations = Vec.promOCR3Durations :=
  ⟨(NewReportingPlugin_spec (NewReportingPluginFactory failFactory "1337" "ccip")
      ⟨0⟩ ⟨0⟩ sampleWorld).1 _ rfl,
   (NewReportingPlugin_spec (NewReportingPluginFactory okFactory "1337" "ccip")
      ⟨0⟩ ⟨0⟩ sampleWorld).2.1 _ _ rfl⟩

end decorator

end promwrapper

namespace memory

/-- C8: for every selector, `NewMemoryChain` returns a chain with that selector, a nil
client and a non-nil deployer key that is the zero value, whose `Confirm` returns block
number 0 and a nil error for every transaction, the nil one included, and leaves the
state untouched. -/
theorem NewMemoryChain_placeholder {β : Type} (selector : Nat) :
    (NewMemoryChain selector : Chain β).Selector = selector ∧
    (NewMemoryChain selector : Chain β).Client.isNone = true ∧
    (NewMemoryChain selector : Chain β).DeployerKey = some {} ∧
    (∀ (tx : Option Transaction) (fuel : Nat) (w : ChainWorld β),
      (NewMemoryChain selector : Chain β).Confirm tx fuel w = some ((0, none), w)) :=
  ⟨rfl, rfl, rfl, fun _ _ _ => rfl⟩

/-- Every chain in the map built by the loop of `generateMemoryChain` was in the map
before, or is the chain generated for one of the inputs, stored under the selector of
that input. -/
theorem generateMemoryChainLoop_mem {β : Type} (env : Env β)
    (inputs : List (Nat × EVMChain)) (chains out : GoMap (Chain β))
    (h : generateMemoryChainLoop env inputs chains = some out) (sel : Nat) (c : Chain β)
    (hc : out sel = some c) :
    chains sel = some c ∨
    ∃ cid chain chainInfo, (cid, chain) ∈ inputs ∧
      env.GetChainDetailsByChainIDAndFamily (Nat.repr cid) FamilyEVM = .ok chainInfo ∧
      chainInfo.ChainSelector = sel ∧ c = generatedChain env chain chainInfo := by
  induction inputs generalizing chains with
  | nil =>
    simp only [generateMemoryChainLoop, Option.some.injEq] at h
    subst h
    exact Or.inl hc
  | cons e rest ih =>
    obtain ⟨cid, chain⟩ := e
    simp only [generateMemoryChainLoop] at h
    cases hd : env.GetChainDetailsByChainIDAndFamily (Nat.repr cid) FamilyEVM with
    | error err => simp [hd] at h
    | ok chainInfo =>
      simp only [hd] at h
      rcases ih _ h with hin | ⟨cid1, chain1, info1, hmem, hd1, hsel, hc1⟩
      · by_cases hk : sel = chainInfo.ChainSelector
        · right
          refine ⟨cid, chain, chainInfo, List.mem_cons_self _ _, hd, hk.symm, ?_⟩
          simp only [GoMap.set, hk, if_true, Option.some.injEq] at hin
          exact hin.symm
        · left
          simpa [GoMap.set, hk] using hin
      · exact Or.inr ⟨cid1, chain1, info1, List.mem_cons_of_mem _ hmem, hd1, hsel, hc1⟩

/-- Every chain in the map built by `generateMemoryChain` is the chain generated for one
of the inputs, stored under the selector of that input. -/
theorem generateMemoryChain_mem {β : Type} (env : Env β)
    (inputs : List (Nat × EVMChain)) (out : GoMap (Chain β))
    (h : generateMemoryChain env inputs = some out) (sel : Nat) (c : Chain β)
    (hc : out sel = some c) :
    ∃ cid chain chainInfo, (cid, chain) ∈ inputs ∧
      env.GetChainDetailsByChainIDAndFamily (Nat.repr cid) FamilyEVM = .ok chainInfo ∧
      chainInfo.ChainSelector = sel ∧ c = generatedChain env chain chainInfo := by
  rcases generateMemoryChainLoop_mem env inputs GoMap.empty out h sel c hc with h0 | h1
  · simp [GoMap.empty] at h0
  · exact h1

/-- C9: for every chain in the map built by `generateMemoryChain`, `Confirm` of a nil
transaction returns block number 0 and the error "tx was nil, nothing to confirm, chain "
followed by the name of the chain, and returns the state it was given: no block is
committed, no receipt is queried, no call is logged. -/
theorem generated_Confirm_nil {β : Type} (env : Env β) (inputs : List (Nat × EVMChain))
    (out : GoMap (Chain β)) (h : generateMemoryChain env inputs = some out) (sel : Nat)
    (c : Chain β) (hc : out sel = some c) (fuel : Nat) (w : ChainWorld β) :
    ∃ cid chain chainInfo, (cid, chain) ∈ inputs ∧
      env.GetChainDetailsByChainIDAndFamily (Nat.repr cid) FamilyEVM = .ok chainInfo ∧
      chainInfo.ChainSelector = sel ∧
      c.Confirm none fuel w = some ((0, some (.errorString
        ("tx was nil, nothing to confirm, chain " ++ chainInfo.ChainName))), w) := by
  obtain ⟨cid, chain, chainInfo, hmem, hd, hsel, rfl⟩ :=
    generateMemoryChain_mem env inputs out h sel c hc
  exact ⟨cid, chain, chainInfo, hmem, hd, hsel, rfl⟩

/-- Witness of C9: the chain generated for the sample chain 1337. -/
theorem generated_Confirm_nil_witness :
    ∃ cid chain chainInfo, (cid, chain) ∈ [(1337, sampleEVMChain)] ∧
      (sampleEnv 1).GetChainDetailsByChainIDAndFamily (Nat.repr cid) FamilyEVM
        = .ok chainInfo ∧
      chainInfo.ChainSelector = 3379446385462418246 ∧
      (generatedChain (sampleEnv 1) sampleEVMChain sampleDetails).Confirm none 0
          sampleChainWorld
        = some ((0, some (.errorString
            ("tx was nil, nothing to confirm, chain " ++ chainInfo.ChainName))),
          sampleChainWorld) :=
  generated_Confirm_nil (sampleEnv 1) [(1337, sampleEVMChain)] (sampleChains 1) rfl
    3379446385462418246 _ rfl 0 sampleChainWorld

/-- Once the poll number `k` finds a receipt, every run of the loop with more than `k`
iterations returns: block number 0 and a "reverted" error for status 0, the block number
of the receipt and a nil error otherwise. -/
theorem confirmLoop_returns {β : Type} (env : Env β) (chain : EVMChain)
    (chainInfo : ChainDetails) (backend : Backend β) (tx : Transaction) (k : Nat) :
    ∀ (fuel : Nat) (w : ChainWorld β) (receipt : Receipt),
      firstReceipt backend tx.Hash k w.backend = some receipt → k < fuel →
      ∃ n err w1, confirmLoop env chain chainInfo backend tx fuel w = some ((n, err), w1) ∧
        (receipt.Status = 0 → n = 0 ∧
          ((∃ errReason,
              err = some (.errorString (revertedReasonMsg tx errReason chainInfo))) ∨
            err = some (.errorString (revertedUndecodedMsg tx chainInfo)))) ∧
        (receipt.Status ≠ 0 → n = Uint64 receipt.BlockNumber ∧ err = none) := by
  induction k with
  | zero =>
    intro fuel w receipt hfirst hlt
    obtain ⟨f, rfl⟩ : ∃ f, fuel = f + 1 := ⟨fuel - 1, by omega⟩
    simp only [firstReceipt] at hfirst
    cases hq : (backend.TransactionReceipt tx.Hash (backend.Commit w.backend)).1 with
    | error e => simp [hq] at hfirst
    | ok r =>
      simp only [hq, Option.some.injEq] at hfirst
      subst hfirst
      by_cases hs : r.Status = 0
      · cases hdec : ((env.GetErrorReasonFromTx chain.Backend chain.DeployerKey.From tx r
            (backend.TransactionReceipt tx.Hash (backend.Commit w.backend)).2).1.2.isNone
            && (env.GetErrorReasonFromTx chain.Backend chain.DeployerKey.From tx r
            (backend.TransactionReceipt tx.Hash (backend.Commit w.backend)).2).1.1 != "")
        · exact ⟨_, _, _, by simp only [confirmLoop, hq, hs, if_true, hdec]; rfl,
            fun _ => ⟨rfl, Or.inr rfl⟩, fun hne => absurd hs hne⟩
        · exact ⟨_, _, _, by simp only [confirmLoop, hq, hs, if_true, hdec]; rfl,
            fun _ => ⟨rfl, Or.inl ⟨_, rfl⟩⟩, fun hne => absurd hs hne⟩
      · exact ⟨_, _, _, by simp only [confirmLoop, hq, hs, if_false]; rfl,
          fun h0 => absurd h0 hs, fun _ => ⟨rfl, rfl⟩⟩
  | succ k ih =>
    intro fuel w receipt hfirst hlt
    obtain ⟨f, rfl⟩ : ∃ f, fuel = f + 1 := ⟨fuel - 1, by omega⟩
    simp only [firstReceipt] at hfirst
    cases hq : (backend.TransactionReceipt tx.Hash (backend.Commit w.backend)).1 with
    | ok r => simp [hq] at hfirst
    | error e =>
      simp only [hq] at hfirst
      obtain ⟨n, err, w1, hrun, hres⟩ := ih f
        { backend := (backend.TransactionReceipt tx.Hash (backend.Commit w.backend)).2,
          calls := w.calls ++ [Call.Commit, Call.TransactionReceipt tx.Hash] ++
            [Call.Log ["failed to get receipt", "chain", chainInfo.ChainName, e.Error]] }
        receipt hfirst (by omega)
      exact ⟨n, err, w1, by simp only [confirmLoop, hq]; exact hrun, hres⟩

/-- Whenever the loop returns, some poll found a receipt after the polls before it had
failed, and the result is the one determined by that receipt. -/
theorem confirmLoop_sound {β : Type} (env : Env β) (chain : EVMChain)
    (chainInfo : ChainDetails) (backend : Backend β) (tx : Transaction) (fuel : Nat) :
    ∀ (w : ChainWorld β) (n : Nat) (err : Option GoError) (w1 : ChainWorld β),
      confirmLoop env chain chainInfo backend tx fuel w = some ((n, err), w1) →
      ∃ k receipt, k < fuel ∧ firstReceipt backend tx.Hash k w.backend = some receipt ∧
        (receipt.Status = 0 → n = 0 ∧
          ((∃ errReason,
              err = some (.errorString (revertedReasonMsg tx errReason chainInfo))) ∨
            err = some (.errorString (revertedUndecodedMsg tx chainInfo)))) ∧
        (receipt.Status ≠ 0 → n = Uint64 receipt.BlockNumber ∧ err = none) := by
  induction fuel with
  | zero => intro w n err w1 h; simp [confirmLoop] at h
  | succ f ih =>
    intro w n err w1 h
    cases hq : (backend.TransactionReceipt tx.Hash (backend.Commit w.backend)).1 with
    | error e =>
      simp only [confirmLoop, hq] at h
      obtain ⟨k, receipt, hk, hfirst, hres⟩ := ih _ n err w1 h
      exact ⟨k + 1, receipt, by omega, by simp only [firstReceipt, hq]; exact hfirst, hres⟩
    | ok r =>
      have hfirst : firstReceipt backend tx.Hash 0 w.backend = some r := by
        simp only [firstReceipt, hq]
      obtain ⟨n2, err2, w2, hrun, hres⟩ :=
        confirmLoop_returns env chain chainInfo backend tx 0 (f + 1) w r hfirst (by omega)
      rw [hrun] at h
      simp only [Option.some.injEq, Prod.mk.injEq] at h
      obtain ⟨⟨rfl, rfl⟩, rfl⟩ := h
      exact ⟨0, r, by omega, hfirst, hres⟩

/-- C10: for every chain in the map built by `generateMemoryChain` and every non-nil
transaction, whenever `Confirm` returns, some poll found a receipt; a nil error is
returned only for a receipt with a non-zero status, together with exactly the block
number of that receipt; a receipt with status 0 gives block number 0 and a "reverted"
error, with or without a decoded reason. And `Confirm` does return, with these results,
as soon as it is given more iterations than the polls needed to find the receipt. -/
theorem generated_Confirm_receipt {β : Type} (env : Env β) (inputs : List (Nat × EVMChain))
    (out : GoMap (Chain β)) (h : generateMemoryChain env inputs = some out) (sel : Nat)
    (c : Chain β) (hc : out sel = some c) (tx : Transaction) (w : ChainWorld β) :
    ∃ cid chain chainInfo, (cid, chain) ∈ inputs ∧
      env.GetChainDetailsByChainIDAndFamily (Nat.repr cid) FamilyEVM = .ok chainInfo ∧
      chainInfo.ChainSelector = sel ∧
      (∀ (fuel n : Nat) (err : Option GoError) (w1 : ChainWorld β),
        c.Confirm (some tx) fuel w = some ((n, err), w1) →
        ∃ k receipt, k < fuel ∧
          firstReceipt (env.NewBackend chain.Backend) tx.Hash k w.backend = some receipt ∧
          (err = none → receipt.Status ≠ 0 ∧ n = Uint64 receipt.BlockNumber ∧
            (receipt.BlockNumber < 2 ^ 64 → n = receipt.BlockNumber)) ∧
          (receipt.Status = 0 → n = 0 ∧
            ((∃ errReason,
                err = some (.errorString (revertedReasonMsg tx errReason chainInfo))) ∨
              err = some (.errorString (revertedUndecodedMsg tx chainInfo))))) ∧
      (∀ (k fuel : Nat) (receipt : Receipt),
        firstReceipt (env.NewBackend chain.Backend) tx.Hash k w.backend = some receipt →
        k < fuel →
        ∃ n err w1, c.Confirm (some tx) fuel w = some ((n, err), w1) ∧
          (receipt.Status = 0 → n = 0 ∧
            ((∃ errReason,
                err = some (.errorString (revertedReasonMsg tx errReason chainInfo))) ∨
              err = some (.errorString (revertedUndecodedMsg tx chainInfo)))) ∧
          (receipt.Status ≠ 0 → n = Uint64 receipt.BlockNumber ∧ err = none ∧
            (receipt.BlockNumber < 2 ^ 64 → n = receipt.BlockNumber))) := by
  obtain ⟨cid, chain, chainInfo, hmem, hd, hsel, rfl⟩ :=
    generateMemoryChain_mem env inputs out h sel c hc
  refine ⟨cid, chain, chainInfo, hmem, hd, hsel, ?_, ?_⟩
  · intro fuel n err w1 hrun
    obtain ⟨k, receipt, hk, hfirst, h0, h1⟩ :=
      confirmLoop_sound env chain chainInfo (env.NewBackend chain.Backend) tx fuel w n err w1
        hrun
    refine ⟨k, receipt, hk, hfirst, ?_, h0⟩
    intro herr
    have hs : receipt.Status ≠ 0 := by
      intro hz
      rcases (h0 hz).2 with ⟨reason, hr⟩ | hr <;> simp [herr] at hr
    refine ⟨hs, (h1 hs).1, fun hlt => ?_⟩
    rw [(h1 hs).1, Uint64, Nat.mod_eq_of_lt hlt]
  · intro k fuel receipt hfirst hk
    obtain ⟨n, err, w1, hrun, h0, h1⟩ :=
      confirmLoop_returns env chain chainInfo (env.NewBackend chain.Backend) tx k fuel w
        receipt hfirst hk
    refine ⟨n, err, w1, hrun, h0, fun hs => ⟨(h1 hs).1, (h1 hs).2, fun hlt => ?_⟩⟩
    rw [(h1 hs).1, Uint64, Nat.mod_eq_of_lt hlt]

/-- Witness of C10: on the sample chain the receipt is found by the third poll; with
status 1 `Confirm` returns its block number 3 and a nil error, with status 0 it returns
0 and the "reverted" error, without the reason when it could not be decoded and with it
when it could. -/
theorem generated_Confirm_receipt_witness :
    ((generatedChain (sampleEnv 1) sampleEVMChain sampleDetails).Confirm
        (some ⟨⟨"0xabc"⟩⟩) 5 sampleChainWorld).map (fun r => r.1) = some (3, none) ∧
    ((generatedChain (sampleEnv 0) sampleEVMChain sampleDetails).Confirm
        (some ⟨⟨"0xabc"⟩⟩) 5 sampleChainWorld).map (fun r => r.1)
      = some (0, some (.errorString
          "tx 0xabc reverted, could not decode error reason chain geth-testnet")) ∧
    ((generatedChain sampleEnvDecoded sampleEVMChain sampleDetails).Confirm
        (some ⟨⟨"0xabc"⟩⟩) 5 sampleChainWorld).map (fun r => r.1)
      = some (0, some (.errorString
          "tx 0xabc reverted,error reason: out of gas chain geth-testnet")) ∧
    firstReceipt ((sampleEnv 1).NewBackend sampleEVMChain.Backend) ⟨"0xabc"⟩ 2
      sampleChainWorld.backend = some { Status := 1, BlockNumber := 3 } ∧
    ∃ cid chain chainInfo, (cid, chain) ∈ [(1337, sampleEVMChain)] ∧
      (sampleEnv 1).GetChainDetailsByChainIDAndFamily (Nat.repr cid) FamilyEVM
        = .ok chainInfo ∧
      chainInfo.ChainSelector = 3379446385462418246 ∧
      (∀ (fuel n : Nat) (err : Option GoError) (w1 : ChainWorld Nat),
        (generatedChain (sampleEnv 1) sampleEVMChain sampleDetails).Confirm
          (some ⟨⟨"0xabc"⟩⟩) fuel sampleChainWorld = some ((n, err), w1) →
        ∃ k receipt, k < fuel ∧
          firstReceipt ((sampleEnv 1).NewBackend chain.Backend) ⟨"0xabc"⟩ k
            sampleChainWorld.backend = some receipt ∧
          (err = none → receipt.Status ≠ 0 ∧ n = Uint64 receipt.BlockNumber ∧
            (receipt.BlockNumber < 2 ^ 64 → n = receipt.BlockNumber)) ∧
          (receipt.Status = 0 → n = 0 ∧
            ((∃ errReason, err = some (.errorString
                (revertedReasonMsg ⟨⟨"0xabc"⟩⟩ errReason chainInfo))) ∨
              err = some (.errorString (revertedUndecodedMsg ⟨⟨"0xabc"⟩⟩ chainInfo))))) ∧
      (∀ (k fuel : Nat) (receipt : Receipt),
        firstReceipt ((sampleEnv 1).NewBackend chain.Backend) ⟨"0xabc"⟩ k
          sampleChainWorld.backend = some receipt →
        k < fuel →
        ∃ n err w1, (generatedChain (sampleEnv 1) sampleEVMChain sampleDetails).Confirm
            (some ⟨⟨"0xabc"⟩⟩) fuel sampleChainWorld = some ((n, err), w1) ∧
          (receipt.Status = 0 → n = 0 ∧
            ((∃ errReason, err = some (.errorString
                (revertedReasonMsg ⟨⟨"0xabc"⟩⟩ errReason chainInfo))) ∨
              err = some (.errorString (revertedUndecodedMsg ⟨⟨"0xabc"⟩⟩ chainInfo)))) ∧
          (receipt.Status ≠ 0 → n = Uint64 receipt.BlockNumber ∧ err = none ∧
            (receipt.BlockNumber < 2 ^ 64 → n = receipt.BlockNumber))) :=
  ⟨by decide, by decide, by decide, by decide,
    generated_Confirm_receipt (sampleEnv 1) [(1337, sampleEVMChain)] (sampleChains 1) rfl
      3379446385462418246 _ rfl ⟨⟨"0xabc"⟩⟩ sampleChainWorld⟩

end memory

namespace memory

/-- The loop of `NewNodes` does not panic when all its indices are in range, and then it
calls `NewNode` once for each value of the loop variable, in order. -/
theorem newNodeCalls_eq (ports : List Int) (bootstrap : Bool) (offset : Int) (idx : List Nat)
    (h : ∀ i ∈ idx, 0 ≤ offset + (i : Int) ∧ (offset + (i : Int)).toNat < ports.length) :
    newNodeCalls ports bootstrap offset idx
      = some (idx.map (fun (i : Nat) =>
          NodeCall.mk (offset + i) (ports.getD (offset + i).toNat 0) bootstrap)) := by
  induction idx with
  | nil => rfl
  | cons i rest ih =>
    have hi := h i (List.mem_cons_self _ _)
    have hp : portAt ports (offset + (i : Int))
        = some (ports.getD (offset + (i : Int)).toNat 0) := by
      unfold portAt
      rw [if_neg (by omega), List.getD_eq_getElem?_getD, List.getElem?_eq_getElem hi.2]
      rfl
    simp only [newNodeCalls, hp, ih (fun j hj => h j (List.mem_cons_of_mem _ hj)),
      List.map_cons]

/-- The calls of `NewNode` made by `NewNodes` when `freeport.GetN` returns as many ports
as it was asked for. -/
theorem NewNodes_calls {N : Type} (d : NodeDeps N) (numNodes numBootstraps : Int)
    (hn : 0 ≤ numNodes) (hb : 0 ≤ numBootstraps) (hpos : 0 < numNodes + numBootstraps)
    (hlen : (d.GetN (numBootstraps + numNodes)).length = (numBootstraps + numNodes).toNat) :
    ∃ r, NewNodes d numNodes numBootstraps = some r ∧
      r.requested = some (numBootstraps + numNodes) ∧
      r.calls =
        (List.range numBootstraps.toNat).map (fun (i : Nat) =>
          NodeCall.mk i ((d.GetN (numBootstraps + numNodes)).getD i 0) true) ++
        (List.range numNodes.toNat).map (fun (j : Nat) =>
          NodeCall.mk (numBootstraps + j)
            ((d.GetN (numBootstraps + numNodes)).getD (numBootstraps.toNat + j) 0) false) := by
  have h1 := newNodeCalls_eq (d.GetN (numBootstraps + numNodes)) true 0
    (List.range numBootstraps.toNat) (by
      intro i hi
      rw [List.mem_range] at hi
      omega)
  have h2 := newNodeCalls_eq (d.GetN (numBootstraps + numNodes)) false numBootstraps
    (List.range numNodes.toNat) (by
      intro i hi
      rw [List.mem_range] at hi
      omega)
  have e1 : (List.range numBootstraps.toNat).map (fun (i : Nat) =>
        NodeCall.mk (0 + i) ((d.GetN (numBootstraps + numNodes)).getD (0 + (i : Int)).toNat 0)
          true)
      = (List.range numBootstraps.toNat).map (fun (i : Nat) =>
        NodeCall.mk i ((d.GetN (numBootstraps + numNodes)).getD i 0) true) := by
    apply List.map_congr_left
    intro i _
    simp
  have e2 : (List.range numNodes.toNat).map (fun (j : Nat) =>
        NodeCall.mk (numBootstraps + j)
          ((d.GetN (numBootstraps + numNodes)).getD (numBootstraps + (j : Int)).toNat 0) false)
      = (List.range numNodes.toNat).map (fun (j : Nat) =>
        NodeCall.mk (numBootstraps + j)
          ((d.GetN (numBootstraps + numNodes)).getD (numBootstraps.toNat + j) 0) false) := by
    apply List.map_congr_left
    intro j _
    have : (numBootstraps + (j : Int)).toNat = numBootstraps.toNat + j := by omega
    rw [this]
  rw [e1] at h1
  rw [e2] at h2
  unfold NewNodes
  rw [if_neg (by omega)]
  simp only [h1, h2]
  exact ⟨_, rfl, rfl, rfl⟩

/-- Reading every element of a slice by its index gives the slice back. -/
theorem map_getD_range (l : List Int) :
    (List.range l.length).map (fun (i : Nat) => l.getD i 0) = l := by
  apply List.ext_getElem
  · simp
  · intro n h1 h2
    simp [List.getD_eq_getElem?_getD, List.getElem?_eq_getElem h2]

/-- C11: for non-negative `numNodes` and `numBootstraps` with a positive sum, `NewNodes`
asks for exactly `numBootstraps + numNodes` ports and, given that many, creates bootstrap
node `i` with `ports[i]` and the flag true and plugin node `j` with
`ports[numBootstraps + j]` and the flag false; the indices used are 0, 1, ... up to the
length of the port list, each once, so the ports used are the port list itself, and when
the free ports are distinct no bootstrap node has the port of a plugin node. -/
theorem NewNodes_ports_separate {N : Type} (d : NodeDeps N) (numNodes numBootstraps : Int)
    (hn : 0 ≤ numNodes) (hb : 0 ≤ numBootstraps) (hpos : 0 < numNodes + numBootstraps)
    (hlen : (d.GetN (numBootstraps + numNodes)).length = (numBootstraps + numNodes).toNat) :
    ∃ r, NewNodes d numNodes numBootstraps = some r ∧
      r.requested = some (numBootstraps + numNodes) ∧
      r.calls.length = (numBootstraps + numNodes).toNat ∧
      (∀ i : Nat, (i : Int) < numBootstraps →
        r.calls[i]? = some (NodeCall.mk i ((d.GetN (numBootstraps + numNodes)).getD i 0) true)) ∧
      (∀ j : Nat, (j : Int) < numNodes →
        r.calls[numBootstraps.toNat + j]? = some (NodeCall.mk (numBootstraps + j)
          ((d.GetN (numBootstraps + numNodes)).getD (numBootstraps.toNat + j) 0) false)) ∧
      r.calls.map (fun c => c.index)
        = (List.range (d.GetN (numBootstraps + numNodes)).length).map (fun (k : Nat) => (k : Int)) ∧
      r.calls.map (fun c => c.port) = d.GetN (numBootstraps + numNodes) ∧
      ((d.GetN (numBootstraps + numNodes)).Nodup →
        ∀ b ∈ r.calls, ∀ p ∈ r.calls, b.bootstrap = true → p.bootstrap = false →
          b.port ≠ p.port) := by
  obtain ⟨r, hrun, hreq, hcalls⟩ := NewNodes_calls d numNodes numBootstraps hn hb hpos hlen
  have hsplit : (d.GetN (numBootstraps + numNodes)).length
      = numBootstraps.toNat + numNodes.toNat := by omega
  have hports : r.calls.map (fun c => c.port) = d.GetN (numBootstraps + numNodes) := by
    conv_rhs => rw [← map_getD_range (d.GetN (numBootstraps + numNodes)), hsplit,
      List.range_add, List.map_append, List.map_map]
    rw [hcalls, List.map_append, List.map_map, List.map_map]
    rfl
  refine ⟨r, hrun, hreq, ?_, ?_, ?_, ?_, hports, ?_⟩
  · rw [hcalls]
    simp only [List.length_append, List.length_map, List.length_range]
    omega
  · intro i hi
    rw [hcalls, List.getElem?_append_left (by simp; omega), List.getElem?_map,
      List.getElem?_range (by omega)]
    rfl
  · intro j hj
    rw [hcalls, List.getElem?_append_right (by simp), List.getElem?_map]
    simp only [List.length_map, List.length_range, Nat.add_sub_cancel_left]
    rw [List.getElem?_range (by omega)]
    rfl
  · rw [hsplit, List.range_add, List.map_append, List.map_map, hcalls, List.map_append,
      List.map_map, List.map_map]
    congr 1
    apply List.map_congr_left
    intro j _
    simp only [Function.comp, Nat.cast_add]
    omega
  · intro hnd b hbm p hpm hbt hpf heq
    rw [← hports] at hnd
    have := List.inj_on_of_nodup_map hnd hbm hpm heq
    rw [this, hpf] at hbt
    exact Bool.noConfusion hbt

/-- Witness of C11: two bootstrap nodes and three plugin nodes on the ports 9000 to
9004. -/
theorem NewNodes_ports_separate_witness :
    (NewNodes sampleNodeDeps 3 2).map (fun r => (r.requested, r.calls))
      = some (some 5, [⟨0, 9000, true⟩, ⟨1, 9001, true⟩, ⟨2, 9002, false⟩,
          ⟨3, 9003, false⟩, ⟨4, 9004, false⟩]) ∧
    ∃ r, NewNodes sampleNodeDeps 3 2 = some r ∧
      r.requested = some (2 + 3) ∧
      r.calls.length = ((2 : Int) + 3).toNat ∧
      (∀ i : Nat, (i : Int) < 2 →
        r.calls[i]? = some (NodeCall.mk i ((sampleNodeDeps.GetN (2 + 3)).getD i 0) true)) ∧
      (∀ j : Nat, (j : Int) < 3 →
        r.calls[(2 : Int).toNat + j]? = some (NodeCall.mk (2 + j)
          ((sampleNodeDeps.GetN (2 + 3)).getD ((2 : Int).toNat + j) 0) false)) ∧
      r.calls.map (fun c => c.index)
        = (List.range (sampleNodeDeps.GetN (2 + 3)).length).map (fun (k : Nat) => (k : Int)) ∧
      r.calls.map (fun c => c.port) = sampleNodeDeps.GetN (2 + 3) ∧
      ((sampleNodeDeps.GetN (2 + 3)).Nodup →
        ∀ b ∈ r.calls, ∀ p ∈ r.calls, b.bootstrap = true → p.bootstrap = false →
          b.port ≠ p.port) :=
  ⟨by decide,
    NewNodes_ports_separate sampleNodeDeps 3 2 (by decide) (by decide) (by decide)
      (by decide)⟩

end memory

namespace txmgr

open legacyevm

/-- A `submit` never changes the configured limit, and keeps the number of unstarted or
in-flight Operations of every Key within it. -/
theorem submit_keeps_bound (other : Manager → SubmitRequest → Option Reason) (m : Manager)
    (req : SubmitRequest) (key : Nat) (h : pendingCount m.ops key ≤ m.maxInFlight) :
    (submit other m req).2.maxInFlight = m.maxInFlight ∧
    pendingCount (submit other m req).2.ops key ≤ m.maxInFlight := by
  unfold submit
  by_cases hlim : m.maxInFlight ≤ pendingCount m.ops req.key
  · rw [if_pos hlim]
    exact ⟨rfl, h⟩
  · rw [if_neg hlim]
    cases hother : other m req with
    | some reason => exact ⟨rfl, h⟩
    | none =>
      refine ⟨rfl, ?_⟩
      simp only [pendingCount, List.countP_append, List.countP_cons, List.countP_nil,
        Operation.pending]
      by_cases hk : req.key = key
      · subst hk
        simp only [pendingCount] at hlim h
        simp
        omega
      · simp only [pendingCount] at h
        simp [hk]
        exact h

/-- A sequence of `submit` calls never changes the configured limit, and keeps the number
of unstarted or in-flight Operations of every Key within it. -/
theorem submitAll_keeps_bound (other : Manager → SubmitRequest → Option Reason)
    (reqs : List SubmitRequest) (key : Nat) :
    ∀ m : Manager, pendingCount m.ops key ≤ m.maxInFlight →
      (submitAll other m reqs).2.maxInFlight = m.maxInFlight ∧
      pendingCount (submitAll other m reqs).2.ops key ≤ m.maxInFlight := by
  induction reqs with
  | nil => intro m h; exact ⟨rfl, h⟩
  | cons req rest ih =>
    intro m h
    obtain ⟨h1, h2⟩ := submit_keeps_bound other m req key h
    obtain ⟨h3, h4⟩ := ih (submit other m req).2 (by rw [h1]; exact h2)
    simp only [submitAll]
    exact ⟨by rw [h3, h1], by rw [h1] at h4; exact h4⟩

/-- C12: started with the Operations of a Key within the in-flight limit, every sequence
of `submit` calls leaves the number of unstarted or in-flight Operations of that Key
within the limit; a submission on a Key at the limit is rejected with the reason
"in-flight limit exceeded" and nothing is recorded for it; and with a limit of 2, three
submissions on a Key with nothing pending record the first two with the nonces N and
N + 1 and reject the third with that reason. -/
theorem submitAll_inFlight_bound (other : Manager → SubmitRequest → Option Reason)
    (m : Manager) (reqs : List SubmitRequest) (key : Nat)
    (h : pendingCount m.ops key ≤ m.maxInFlight) :
    (submitAll other m reqs).2.maxInFlight = m.maxInFlight ∧
    pendingCount (submitAll other m reqs).2.ops key ≤ m.maxInFlight ∧
    (∀ req : SubmitRequest, req.key = key → pendingCount m.ops key = m.maxInFlight →
      submit other m req = (.rejected .inFlightLimitExceeded, m)) ∧
    (∀ r1 r2 r3 : SubmitRequest, r1.key = key → r2.key = key → r3.key = key →
      m.maxInFlight = 2 → pendingCount m.ops key = 0 → (∀ m1 r, other m1 r = none) →
      (submitAll other m [r1, r2, r3]).1
        = [.accepted m.ops.length, .accepted (m.ops.length + 1),
           .rejected .inFlightLimitExceeded] ∧
      (submitAll other m [r1, r2, r3]).2.ops
        = m.ops ++ [{ id := m.ops.length, request := r1, nonce := m.nextNonce key,
                      state := .inFlight },
                    { id := m.ops.length + 1, request := r2, nonce := m.nextNonce key + 1,
                      state := .inFlight }]) := by
  refine ⟨(submitAll_keeps_bound other reqs key m h).1,
    (submitAll_keeps_bound other reqs key m h).2, ?_, ?_⟩
  · intro req hk hfull
    subst hk
    simp [submit, hfull]
  · intro r1 r2 r3 h1 h2 h3 hmax h0 hother
    subst h1
    simp only [pendingCount] at h0
    simp [submitAll, submit, pendingCount, List.countP_append, Operation.pending, hmax, h0,
      hother, h2, h3]

/-- Witness of C12: three submissions on Key 1 with a limit of 2 and nonce 7. -/
theorem submitAll_inFlight_bound_witness :
    (submitAll noOther sampleManager
        [⟨1, 20, 0, [], 1⟩, ⟨1, 21, 0, [], 1⟩, ⟨1, 22, 0, [], 1⟩]).1
      = [.accepted 0, .accepted 1, .rejected .inFlightLimitExceeded] ∧
    (submitAll noOther sampleManager
        [⟨1, 20, 0, [], 1⟩, ⟨1, 21, 0, [], 1⟩, ⟨1, 22, 0, [], 1⟩]).2.ops
      = [{ id := 0, request := ⟨1, 20, 0, [], 1⟩, nonce := 7, state := .inFlight },
         { id := 1, request := ⟨1, 21, 0, [], 1⟩, nonce := 8, state := .inFlight }] ∧
    pendingCount (submitAll noOther sampleManager
        [⟨1, 20, 0, [], 1⟩, ⟨1, 21, 0, [], 1⟩, ⟨1, 22, 0, [], 1⟩]).2.ops 1 ≤ 2 :=
  ⟨((submitAll_inFlight_bound noOther sampleManager [] 1 (by decide)).2.2.2
      ⟨1, 20, 0, [], 1⟩ ⟨1, 21, 0, [], 1⟩ ⟨1, 22, 0, [], 1⟩ rfl rfl rfl rfl (by decide)
      (fun _ _ => rfl)).1,
   ((submitAll_inFlight_bound noOther sampleManager [] 1 (by decide)).2.2.2
      ⟨1, 20, 0, [], 1⟩ ⟨1, 21, 0, [], 1⟩ ⟨1, 22, 0, [], 1⟩ rfl rfl rfl rfl (by decide)
      (fun _ _ => rfl)).2,
   (submitAll_inFlight_bound noOther sampleManager
      [⟨1, 20, 0, [], 1⟩, ⟨1, 21, 0, [], 1⟩, ⟨1, 22, 0, [], 1⟩] 1 (by decide)).2.1⟩

end txmgr

namespace promwrapper

open ocr3types

section counter

variable {σ RI : Type} (fname : functionType → String)

/-- The counter after one more `Add` under its own labels. -/
theorem counterValue_append_add (vec : Vec) (labels : List String) (m : List MetricEvent)
    (e : MetricEvent) :
    counterValue vec labels (m ++ [e]) = counterValue vec labels m + e.added vec labels := by
  simp [counterValue, List.map_append, List.sum_append]

/-- C13: `Reports` adds to the reports counter, under the labels chain, plugin and
function name, the number of reports the wrapped plugin returned, and
`ShouldAcceptAttestedReport` and `ShouldTransmitAcceptedReport` add 1 when the wrapped
plugin returned true and 0 when it returned false; nothing in this depends on the error
the wrapped call returned. -/
theorem trackReports_counts_outcome (p : reportingPlugin σ RI) (ctx : Context) (seqNr : Nat)
    (outcome : Bytes) (reportWithInfo : ReportWithInfo RI) (w : World σ) :
    ((p.Reports fname ctx seqNr outcome w).2.metrics
        = (p.ReportingPlugin.Reports ctx seqNr outcome w).2.metrics ++
          [.Observe p.durations
            [p.chainID, p.plugin, fname .reports,
              FormatBool (p.ReportingPlugin.Reports ctx seqNr outcome w).1.2.isNone]
            ((p.ReportingPlugin.Reports ctx seqNr outcome w).2.now - w.now),
           .Add p.reportsGenerated [p.chainID, p.plugin, fname .reports]
            (len (p.ReportingPlugin.Reports ctx seqNr outcome w).1.1)] ∧
      counterValue p.reportsGenerated [p.chainID, p.plugin, fname .reports]
          (p.Reports fname ctx seqNr outcome w).2.metrics
        = counterValue p.reportsGenerated [p.chainID, p.plugin, fname .reports]
            (p.ReportingPlugin.Reports ctx seqNr outcome w).2.metrics
          + len (p.ReportingPlugin.Reports ctx seqNr outcome w).1.1) ∧
    ((p.ShouldAcceptAttestedReport fname ctx seqNr reportWithInfo w).2.metrics
        = (p.ReportingPlugin.ShouldAcceptAttestedReport ctx seqNr reportWithInfo w).2.metrics ++
          [.Observe p.durations
            [p.chainID, p.plugin, fname .shouldAccept,
              FormatBool (p.ReportingPlugin.ShouldAcceptAttestedReport ctx seqNr
                reportWithInfo w).1.2.isNone]
            ((p.ReportingPlugin.ShouldAcceptAttestedReport ctx seqNr reportWithInfo w).2.now
              - w.now),
           .Add p.reportsGenerated [p.chainID, p.plugin, fname .shouldAccept]
            (if (p.ReportingPlugin.ShouldAcceptAttestedReport ctx seqNr reportWithInfo w).1.1
              then 1 else 0)] ∧
      counterValue p.reportsGenerated [p.chainID, p.plugin, fname .shouldAccept]
          (p.ShouldAcceptAttestedReport fname ctx seqNr reportWithInfo w).2.metrics
        = counterValue p.reportsGenerated [p.chainID, p.plugin, fname .shouldAccept]
            (p.ReportingPlugin.ShouldAcceptAttestedReport ctx seqNr reportWithInfo w).2.metrics
          + (if (p.ReportingPlugin.ShouldAcceptAttestedReport ctx seqNr reportWithInfo w).1.1
              then 1 else 0)) ∧
    ((p.ShouldTransmitAcceptedReport fname ctx seqNr reportWithInfo w).2.metrics
        = (p.ReportingPlugin.ShouldTransmitAcceptedReport ctx seqNr
            reportWithInfo w).2.metrics ++
          [.Observe p.durations
            [p.chainID, p.plugin, fname .shouldTransmit,
              FormatBool (p.ReportingPlugin.ShouldTransmitAcceptedReport ctx seqNr
                reportWithInfo w).1.2.isNone]
            ((p.ReportingPlugin.ShouldTransmitAcceptedReport ctx seqNr reportWithInfo w).2.now
              - w.now),
           .Add p.reportsGenerated [p.chainID, p.plugin, fname .shouldTransmit]
            (if (p.ReportingPlugin.ShouldTransmitAcceptedReport ctx seqNr reportWithInfo w).1.1
              then 1 else 0)] ∧
      counterValue p.reportsGenerated [p.chainID, p.plugin, fname .shouldTransmit]
          (p.ShouldTransmitAcceptedReport fname ctx seqNr reportWithInfo w).2.metrics
        = counterValue p.reportsGenerated [p.chainID, p.plugin, fname .shouldTransmit]
            (p.ReportingPlugin.ShouldTransmitAcceptedReport ctx seqNr
              reportWithInfo w).2.metrics
          + (if (p.ReportingPlugin.ShouldTransmitAcceptedReport ctx seqNr reportWithInfo w).1.1
              then 1 else 0)) := by
  refine ⟨⟨?_, ?_⟩, ⟨?_, ?_⟩, ⟨?_, ?_⟩⟩ <;>
    simp [reportingPlugin.Reports, reportingPlugin.ShouldAcceptAttestedReport,
      reportingPlugin.ShouldTransmitAcceptedReport, reportingPlugin.trackReports,
      withObservedExecution, boolToInt, counterValue, MetricEvent.added, List.sum_append]

/-- Evaluation of C13 on the sample plugin: two reports add 2, a true answer adds 1, and
a false answer returned with an error adds 0 and is still written. -/
theorem trackReports_counts_outcome_witness :
    counterValue Vec.promOCR3ReportsGenerated ["1337", "ccip", "reports"]
        (sampleWrapped.Reports sampleNames ⟨0⟩ 1 none sampleWorld).2.metrics = 2 ∧
    counterValue Vec.promOCR3ReportsGenerated ["1337", "ccip", "shouldAccept"]
        (sampleWrapped.ShouldAcceptAttestedReport sampleNames ⟨0⟩ 1 ⟨none, ()⟩
          sampleWorld).2.metrics = 1 ∧
    (sampleWrapped.ShouldTransmitAcceptedReport sampleNames ⟨0⟩ 1 ⟨none, ()⟩
        sampleWorld).2.metrics
      = [.Observe Vec.promOCR3Durations ["1337", "ccip", "shouldTransmit", "false"] 5,
         .Add Vec.promOCR3ReportsGenerated ["1337", "ccip", "shouldTransmit"] 0] := by
  have h := trackReports_counts_outcome sampleNames sampleWrapped ⟨0⟩ 1 none ⟨none, ()⟩
    sampleWorld
  refine ⟨?_, ?_, ?_⟩
  · rw [show ["1337", "ccip", "reports"]
        = [sampleWrapped.chainID, sampleWrapped.plugin, sampleNames .reports] from rfl,
      show Vec.promOCR3ReportsGenerated = sampleWrapped.reportsGenerated from rfl, h.1.2]
    decide
  · rw [show ["1337", "ccip", "shouldAccept"]
        = [sampleWrapped.chainID, sampleWrapped.plugin, sampleNames .shouldAccept] from rfl,
      show Vec.promOCR3ReportsGenerated = sampleWrapped.reportsGenerated from rfl, h.2.1.2]
    decide
  · rw [h.2.2.1]
    decide

/-- C14: each of `Query`, `Observation`, `ValidateObservation` and `Outcome` of the
wrapper writes one observation on the duration histogram after the wrapped call and
nothing else, so every counter has the value the wrapped call left it with; when the
wrapped call itself writes no metric, the writes after the call are those before it
followed by that one observation, and the reports counter has the value it had before
the call. -/
theorem observed_methods_keep_counter (p : reportingPlugin σ RI) (ctx : Context)
    (outctx : OutcomeContext) (query : Bytes) (ao : AttributedObservation)
    (aos : Option (List AttributedObservation)) (vec : Vec) (labels : List String)
    (w : World σ) :
    ((p.Query fname ctx outctx w).2.metrics
        = (p.ReportingPlugin.Query ctx outctx w).2.metrics ++
          [.Observe p.durations
            [p.chainID, p.plugin, fname .query,
              FormatBool (p.ReportingPlugin.Query ctx outctx w).1.2.isNone]
            ((p.ReportingPlugin.Query ctx outctx w).2.now - w.now)] ∧
      counterValue vec labels (p.Query fname ctx outctx w).2.metrics
        = counterValue vec labels (p.ReportingPlugin.Query ctx outctx w).2.metrics ∧
      ((p.ReportingPlugin.Query ctx outctx w).2.metrics = w.metrics →
        counterValue vec labels (p.Query fname ctx outctx w).2.metrics
          = counterValue vec labels w.metrics)) ∧
    ((p.Observation fname ctx outctx query w).2.metrics
        = (p.ReportingPlugin.Observation ctx outctx query w).2.metrics ++
          [.Observe p.durations
            [p.chainID, p.plugin, fname .observation,
              FormatBool (p.ReportingPlugin.Observation ctx outctx query w).1.2.isNone]
            ((p.ReportingPlugin.Observation ctx outctx query w).2.now - w.now)] ∧
      counterValue vec labels (p.Observation fname ctx outctx query w).2.metrics
        = counterValue vec labels (p.ReportingPlugin.Observation ctx outctx query w).2.metrics ∧
      ((p.ReportingPlugin.Observation ctx outctx query w).2.metrics = w.metrics →
        counterValue vec labels (p.Observation fname ctx outctx query w).2.metrics
          = counterValue vec labels w.metrics)) ∧
    ((p.ValidateObservation fname ctx outctx query ao w).2.metrics
        = (p.ReportingPlugin.ValidateObservation ctx outctx query ao w).2.metrics ++
          [.Observe p.durations
            [p.chainID, p.plugin, fname .validateObservation,
              FormatBool (p.ReportingPlugin.ValidateObservation ctx outctx query ao w).1.isNone]
            ((p.ReportingPlugin.ValidateObservation ctx outctx query ao w).2.now - w.now)] ∧
      counterValue vec labels (p.ValidateObservation fname ctx outctx query ao w).2.metrics
        = counterValue vec labels
            (p.ReportingPlugin.ValidateObservation ctx outctx query ao w).2.metrics ∧
      ((p.ReportingPlugin.ValidateObservation ctx outctx query ao w).2.metrics = w.metrics →
        counterValue vec labels (p.ValidateObservation fname ctx outctx query ao w).2.metrics
          = counterValue vec labels w.metrics)) ∧
    ((p.Outcome fname ctx outctx query aos w).2.metrics
        = (p.ReportingPlugin.Outcome ctx outctx query aos w).2.metrics ++
          [.Observe p.durations
            [p.chainID, p.plugin, fname .outcome,
              FormatBool (p.ReportingPlugin.Outcome ctx outctx query aos w).1.2.isNone]
            ((p.ReportingPlugin.Outcome ctx outctx query aos w).2.now - w.now)] ∧
      counterValue vec labels (p.Outcome fname ctx outctx query aos w).2.metrics
        = counterValue vec labels (p.ReportingPlugin.Outcome ctx outctx query aos w).2.metrics ∧
      ((p.ReportingPlugin.Outcome ctx outctx query aos w).2.metrics = w.metrics →
        counterValue vec labels (p.Outcome fname ctx outctx query aos w).2.metrics
          = counterValue vec labels w.metrics)) := by
  have key : ∀ (m : List MetricEvent) (v : Vec) (l : List String) (n : Int),
      counterValue vec labels (m ++ [.Observe v l n]) = counterValue vec labels m := by
    intro m v l n
    rw [counterValue_append_add]
    simp [MetricEvent.added]
  refine ⟨⟨rfl, ?_, ?_⟩, ⟨rfl, ?_, ?_⟩, ⟨rfl, ?_, ?_⟩, ⟨rfl, ?_, ?_⟩⟩
  · exact key _ _ _ _
  · intro h; rw [← h]; exact key _ _ _ _
  · exact key _ _ _ _
  · intro h; rw [← h]; exact key _ _ _ _
  · exact key _ _ _ _
  · intro h; rw [← h]; exact key _ _ _ _
  · exact key _ _ _ _
  · intro h; rw [← h]; exact key _ _ _ _

/-- Witness of C14 on the sample plugin, which writes no metric itself: after `Query` and
after the failing `Observation` the only write is the observation and the reports counter
is still 0. -/
theorem observed_methods_keep_counter_witness :
    (sampleWrapped.Query sampleNames ⟨0⟩ ⟨1, none, 0, 0⟩ sampleWorld).2.metrics
      = [.Observe Vec.promOCR3Durations ["1337", "ccip", "query", "true"] 5] ∧
    counterValue Vec.promOCR3ReportsGenerated ["1337", "ccip", "query"]
        (sampleWrapped.Query sampleNames ⟨0⟩ ⟨1, none, 0, 0⟩ sampleWorld).2.metrics
      = counterValue Vec.promOCR3ReportsGenerated ["1337", "ccip", "query"]
          sampleWorld.metrics ∧
    counterValue Vec.promOCR3ReportsGenerated ["1337", "ccip", "observation"]
        (sampleWrapped.Observation sampleNames ⟨0⟩ ⟨1, none, 0, 0⟩ none sampleWorld).2.metrics
      = counterValue Vec.promOCR3ReportsGenerated ["1337", "ccip", "observation"]
          sampleWorld.metrics :=
  ⟨by decide,
   (observed_methods_keep_counter sampleNames sampleWrapped ⟨0⟩ ⟨1, none, 0, 0⟩ none
      ⟨none, 0⟩ none Vec.promOCR3ReportsGenerated ["1337", "ccip", "query"]
      sampleWorld).1.2.2 rfl,
   (observed_methods_keep_counter sampleNames sampleWrapped ⟨0⟩ ⟨1, none, 0, 0⟩ none
      ⟨none, 0⟩ none Vec.promOCR3ReportsGenerated ["1337", "ccip", "observation"]
      sampleWorld).2.1.2.2 rfl⟩

end counter

end promwrapper

namespace smoke

open memory

/-- With a deployer key at hand the loop never fails: it returns the first user that is
not nil and has another address than the deployer, or the error when there is none. -/
theorem pickLoop_spec (key : TransactOpts) (users : List (Option TransactOpts)) :
    ∃ r, pickLoop (some key) users = some r ∧
      ((∃ pre user post, users = pre ++ some user :: post ∧
          (∀ v, some v ∈ pre → v.From = key.From) ∧ user.From ≠ key.From ∧
          r = (some user, none)) ∨
        ((∀ v, some v ∈ users → v.From = key.From) ∧
          r = (none, some (.errorString "user not found")))) := by
  induction users with
  | nil => exact ⟨_, rfl, Or.inr ⟨by simp, rfl⟩⟩
  | cons x rest ih =>
    obtain ⟨r, hr, hcase⟩ := ih
    cases x with
    | none =>
      refine ⟨r, by simpa [pickLoop] using hr, ?_⟩
      rcases hcase with ⟨pre, user, post, hsplit, hpre, hne, hres⟩ | ⟨hall, hres⟩
      · refine Or.inl ⟨none :: pre, user, post, by simp [hsplit], ?_, hne, hres⟩
        intro v hv
        simp only [List.mem_cons] at hv
        rcases hv with hv | hv
        · cases hv
        · exact hpre v hv
      · refine Or.inr ⟨?_, hres⟩
        intro v hv
        simp only [List.mem_cons] at hv
        rcases hv with hv | hv
        · cases hv
        · exact hall v hv
    | some u =>
      by_cases hu : u.From = key.From
      · refine ⟨r, by simpa [pickLoop, hu] using hr, ?_⟩
        rcases hcase with ⟨pre, user, post, hsplit, hpre, hne, hres⟩ | ⟨hall, hres⟩
        · refine Or.inl ⟨some u :: pre, user, post, by simp [hsplit], ?_, hne, hres⟩
          intro v hv
          simp only [List.mem_cons, Option.some.injEq] at hv
          rcases hv with hv | hv
          · rw [hv]; exact hu
          · exact hpre v hv
        · refine Or.inr ⟨?_, hres⟩
          intro v hv
          simp only [List.mem_cons, Option.some.injEq] at hv
          rcases hv with hv | hv
          · rw [hv]; exact hu
          · exact hall v hv
      · exact ⟨(some u, none), by simp [pickLoop, hu],
          Or.inl ⟨[], u, rest, rfl, by simp, hu, rfl⟩⟩

/-- C15: when the source chain is in the environment with a deployer key,
`pickFirstAvailableUser` returns, with a nil error, the first user of the chain, in list
order, that is not nil and whose address differs from the deployer's; it returns a nil
user and the error "user not found" exactly when every user of the chain is nil or has
the deployer's address, the empty list included. -/
theorem pickFirstAvailableUser_spec {β : Type} (tenv : DeployedEnv) (sourceChain : Nat)
    (e : Environment β) (chain : Chain β) (key : TransactOpts)
    (hchain : e.Chains sourceChain = some chain) (hkey : chain.DeployerKey = some key) :
    ∃ r, pickFirstAvailableUser tenv sourceChain e = some r ∧
      ((∃ pre user post, (tenv.Users sourceChain).getD [] = pre ++ some user :: post ∧
          (∀ v, some v ∈ pre → v.From = key.From) ∧ user.From ≠ key.From ∧
          r = (some user, none)) ∨
        ((∀ v, some v ∈ (tenv.Users sourceChain).getD [] → v.From = key.From) ∧
          r = (none, some (.errorString "user not found")))) ∧
      (r = (none, some (.errorString "user not found")) ↔
        ∀ v, some v ∈ (tenv.Users sourceChain).getD [] → v.From = key.From) := by
  obtain ⟨r, hr, hcase⟩ := pickLoop_spec key ((tenv.Users sourceChain).getD [])
  refine ⟨r, ?_, hcase, ?_⟩
  · simp only [pickFirstAvailableUser, hchain, Option.bind, hkey]
    exact hr
  · constructor
    · intro hres
      rcases hcase with ⟨pre, user, post, _, _, _, hsome⟩ | ⟨hall, _⟩
      · rw [hsome] at hres
        simp at hres
      · exact hall
    · intro hall
      rcases hcase with ⟨pre, user, post, hsplit, _, hne, _⟩ | ⟨_, hres⟩
      · exact absurd (hall user (by rw [hsplit]; simp)) hne
      · exact hres

/-- Witness of C15: among a nil entry, the deployer and two other accounts the first
other account is picked; with the nil entry and the deployer only, no user is found. -/
theorem pickFirstAvailableUser_spec_witness :
    pickFirstAvailableUser sampleUsers 5 sampleEnvironment
      = some (some { From := { value := 2 } }, none) ∧
    pickFirstAvailableUser deployerOnly 5 sampleEnvironment
      = some (none, some (.errorString "user not found")) ∧
    ∃ r, pickFirstAvailableUser sampleUsers 5 sampleEnvironment = some r ∧
      ((∃ pre user post, (sampleUsers.Users 5).getD [] = pre ++ some user :: post ∧
          (∀ v, some v ∈ pre → v.From = ({} : TransactOpts).From) ∧
          user.From ≠ ({} : TransactOpts).From ∧
          r = (some user, none)) ∨
        ((∀ v, some v ∈ (sampleUsers.Users 5).getD [] → v.From = ({} : TransactOpts).From) ∧
          r = (none, some (.errorString "user not found")))) ∧
      (r = (none, some (.errorString "user not found")) ↔
        ∀ v, some v ∈ (sampleUsers.Users 5).getD [] → v.From = ({} : TransactOpts).From) :=
  ⟨by decide, by decide,
    pickFirstAvailableUser_spec sampleUsers 5 sampleEnvironment (NewMemoryChain 5) {} rfl rfl⟩

end smoke

namespace keystone_test

/-- C16, the code at the failing input: after an operator with nodes on EVM and Aptos
chains, `requireChains` lets an operator whose own nodes are on an EVM chain only pass
for the expected types EVM and Aptos, because `got` still holds the chain types of the
operator before; the same operator alone, or placed first, fails. -/
theorem requireChains_accumulates :
    requireChains [nopBoth, nopEvmOnly] ["EVM", "APTOS"] = true ∧
    (wantOf ["EVM", "APTOS"]).same (ownChainTypes nopEvmOnly) = false ∧
    requireChains [nopEvmOnly] ["EVM", "APTOS"] = false ∧
    requireChains [nopEvmOnly, nopBoth] ["EVM", "APTOS"] = false := by
  decide

end keystone_test
